import Mathlib

/-!
# Verification of the MobyGames scraper engine (script.ael.mobygames)

Shallow embedding of `resources/lib/scraper.py` and theorems settling the
frozen claims about it.  Python dictionaries of JSON data are embedded as an
inductive `JSON` type, fallible Python code (code that can raise) is embedded
in `Except PyErr`, and the mutable scraper session (caches, disabled flag,
outbound-call counter) is embedded as an explicit `ScraperState` record that
every operation threads through.

Pieces of the program that live in the external `akl` support library (the
disk-cache primitives of the abstract `Scraper` base class, the constants
module, small text utilities) are modelled from the specification's collaborator
contracts; each such definition carries a doc comment saying so.
-/

/-- Errors a Python expression of the embedded fragment can raise. -/
inductive PyErr where
  | keyError (key : String)
  | typeError
  | nameError (name : String)
  deriving Repr, DecidableEq

/-- Embedded JSON values (Python dicts/lists/scalars as decoded by
`json.loads`).  Numbers are embedded as integers: no claim inspects a
fractional value, numeric fields only ever pass through or get compared to
integer constants. -/
inductive JSON where
  | null
  | bool (b : Bool)
  | num (n : Int)
  | str (s : String)
  | arr (elems : List JSON)
  | obj (fields : List (String × JSON))
  deriving Repr

/-- Python `key in dict`. -/
def JSON.hasKey (fields : List (String × JSON)) (key : String) : Bool :=
  (fields.lookup key).isSome

/-- Python `dict[key]`: the value, or a `KeyError`. -/
def JSON.getKey (fields : List (String × JSON)) (key : String) : Except PyErr JSON :=
  match fields.lookup key with
  | some v => .ok v
  | none => .error (.keyError key)

/-- Python subscript `value[key]` on an arbitrary JSON value: only
dictionaries support string subscripts, everything else raises. -/
def JSON.sub (v : JSON) (key : String) : Except PyErr JSON :=
  match v with
  | .obj fields => JSON.getKey fields key
  | _ => .error .typeError

/-- Python iteration `for x in value`.  Lists yield their elements; `None`
and every other non-list value raises.  (In Python some non-list values are
iterable — strings yield characters, dicts yield keys — but for every place
this embedding iterates, the body immediately subscripts the element with a
string key, which raises `TypeError` on those elements anyway, so collapsing
them to an immediate `TypeError` is observationally faithful.) -/
def JSON.iter (v : JSON) : Except PyErr (List JSON) :=
  match v with
  | .arr elems => .ok elems
  | _ => .error .typeError

/-- Python truthiness of a JSON value (`if x:`). -/
def JSON.truthy (v : JSON) : Bool :=
  match v with
  | .null => false
  | .bool b => b
  | .num n => n != 0
  | .str s => s ≠ ""
  | .arr elems => !elems.isEmpty
  | .obj fields => !fields.isEmpty

/-- Python `is None` / `is not None` test. -/
def JSON.isNull (v : JSON) : Bool :=
  match v with
  | .null => true
  | _ => false

/-- Python `==` between a JSON value and an integer literal. -/
def JSON.eqInt (v : JSON) (n : Int) : Bool :=
  match v with
  | .num m => m == n
  | _ => false

/-- Python `==` between a JSON value and a string literal. -/
def JSON.eqStr (v : JSON) (s : String) : Bool :=
  match v with
  | .str t => t == s
  | _ => false

/-- Python `str(value)`.  Exact only on the scalar shapes the scraper ever
stringifies (the `attribute_name` fields, which are strings in the API). -/
def JSON.pyStr (v : JSON) : String :=
  match v with
  | .null => "None"
  | .bool true => "True"
  | .bool false => "False"
  | .num n => toString n
  | .str s => s
  | .arr _ => "[...]"
  | .obj _ => "{...}"

/-- Modelled from the spec: `constants.DEFAULT_META_TITLE` of the external
`akl` library (the documented default constants; exact spellings live in
`akl.constants`, the claims depend only on the constants being used). -/
def DEFAULT_META_TITLE : String := "[Not set]"

/-- Modelled from the spec: `constants.DEFAULT_META_YEAR`. -/
def DEFAULT_META_YEAR : String := ""

/-- Modelled from the spec: `constants.DEFAULT_META_GENRE`. -/
def DEFAULT_META_GENRE : String := ""

/-- Modelled from the spec: `constants.DEFAULT_META_PLOT`. -/
def DEFAULT_META_PLOT : String := ""

/-- Modelled from the spec: `constants.DEFAULT_META_ESRB`. -/
def DEFAULT_META_ESRB : String := "Not Rated"

/-- Modelled from the spec: `constants.DEFAULT_META_NPLAYERS`. -/
def DEFAULT_META_NPLAYERS : String := ""

/-- `l.find(pat) != -1` / `l.find(pat) >= 0`: `pat` occurs as a contiguous
subsequence of `l` (Python substring containment, on explicit char lists). -/
def containsSub (pat : List Char) : List Char → Bool
  | [] => pat.isEmpty
  | c :: cs => pat.isPrefixOf (c :: cs) || containsSub pat cs

/-- Python `str.find(sub) != -1` on strings. -/
def strContains (s pat : String) : Bool :=
  containsSub pat.toList s.toList

/-- Python `str.lower()` (ASCII level, matching the ASCII table keys and
literals the scraper compares against). -/
def pyLower (s : String) : String :=
  (s.toList.map Char.toLower).asString

/-- Modelled from the spec: `text.remove_HTML_tags` of the external `akl`
library ("plot/description (HTML stripped)"): drops every `<...>` tag span.
Python applies a regex substitution to a string; a non-string raises. -/
def remove_HTML_tags (v : JSON) : Except PyErr JSON :=
  match v with
  | .str s => .ok (.str (stripTags s.toList false).asString)
  | _ => .error .typeError
where
  stripTags : List Char → Bool → List Char
    | [], _ => []
    | c :: cs, inTag =>
      if inTag then stripTags cs (c ≠ '>')
      else if c = '<' then stripTags cs true
      else c :: stripTags cs false

/-- `MobyGames._parse_metadata_title` (scraper.py:328-330). -/
def parse_metadata_title (json_data : List (String × JSON)) : JSON :=
  if JSON.hasKey json_data "title" then
    match json_data.lookup "title" with
    | some v => v
    | none => .str DEFAULT_META_TITLE
  else .str DEFAULT_META_TITLE

/-- Python `value[0:4]` on the release-date field: string slicing; a
non-string, non-list value (including `None`) raises `TypeError`. -/
def pySlice4 (v : JSON) : Except PyErr JSON :=
  match v with
  | .str s => .ok (.str (s.toList.take 4).asString)
  | .arr elems => .ok (.arr (elems.take 4))
  | _ => .error .typeError

/-- Python `len(value)`: only lists (and strings/dicts) have a length; `None`
raises `TypeError`. -/
def pyLen (v : JSON) : Except PyErr Nat :=
  match v with
  | .arr elems => .ok elems.length
  | .str s => .ok s.length
  | .obj fields => .ok fields.length
  | _ => .error .typeError

/-- `MobyGames._parse_metadata_year` (scraper.py:332-341).  Note the source
subscripts `json_data['platforms']` without a presence guard. -/
def parse_metadata_year (json_data : List (String × JSON)) (scraper_platform : Int) :
    Except PyErr JSON := do
  let platform_data ← JSON.getKey json_data "platforms"
  let n ← pyLen platform_data
  if n = 0 then
    return .str DEFAULT_META_YEAR
  let platform_list ← platform_data.iter
  match ← firstMatching platform_list with
  | some date4 => return date4
  | none =>
    match platform_list with
    | [] => return .str DEFAULT_META_YEAR
    | p0 :: _ => pySlice4 (← p0.sub "first_release_date")
where
  /-- The `for platform in platform_data` loop: the first entry whose
  `platform_id` equals `int(scraper_platform)` yields its release date's
  first four characters. -/
  firstMatching : List JSON → Except PyErr (Option JSON)
    | [] => .ok none
    | p :: ps => do
      if (← p.sub "platform_id").eqInt scraper_platform then
        return some (← pySlice4 (← p.sub "first_release_date"))
      else
        firstMatching ps

/-- `MobyGames._parse_metadata_genre` (scraper.py:343-352). -/
def parse_metadata_genre (json_data : List (String × JSON)) : Except PyErr JSON := do
  if JSON.hasKey json_data "genres" then
    let genres ← (← JSON.getKey json_data "genres").iter
    let names ← collectNames genres
    return .str (String.intercalate ", " names)
  else
    return .str DEFAULT_META_GENRE
where
  /-- The `for genre in json_data['genres']` loop collecting
  `genre['genre_name']`; `', '.join` then requires strings. -/
  collectNames : List JSON → Except PyErr (List String)
    | [] => .ok []
    | g :: gs => do
      match ← g.sub "genre_name" with
      | .str s => return s :: (← collectNames gs)
      | _ => .error .typeError

/-- `MobyGames._parse_metadata_plot` (scraper.py:354-362). -/
def parse_metadata_plot (json_data : List (String × JSON)) : Except PyErr JSON := do
  if JSON.hasKey json_data "description" &&
      !((json_data.lookup "description").getD .null).isNull then
    remove_HTML_tags ((json_data.lookup "description").getD .null)
  else
    return .str DEFAULT_META_PLOT

/-- `MobyGames._parse_metadata_rating` (scraper.py:364-368): returns the raw
`moby_score` value, or Python `None` (embedded as `Option.none`). -/
def parse_metadata_rating (json_data : List (String × JSON)) : Option JSON :=
  if JSON.hasKey json_data "moby_score" &&
      !((json_data.lookup "moby_score").getD .null).isNull then
    some ((json_data.lookup "moby_score").getD .null)
  else
    none

/-- `MobyGames._parse_metadata_developer` (scraper.py:370-381). -/
def parse_metadata_developer (json_data : List (String × JSON)) :
    Except PyErr (Option JSON) := do
  if !(JSON.hasKey json_data "releases") then
    return none
  let releases ← JSON.getKey json_data "releases"
  if (← pyLen releases) = 0 then
    return none
  let first ← headRelease releases
  if (match first with | .obj fs => JSON.hasKey fs "companies" | _ => true) then
    let companies ← (← first.sub "companies").iter
    findDeveloper companies
  else
    return none
where
  /-- `json_data['releases'][0]`: integer subscript on the list. -/
  headRelease : JSON → Except PyErr JSON
    | .arr (r :: _) => .ok r
    | _ => .error .typeError
  /-- The `for company in ...` loop returning the first company whose
  `role` equals `'Developed by'`. -/
  findDeveloper : List JSON → Except PyErr (Option JSON)
    | [] => .ok none
    | c :: cs => do
      if (← c.sub "role").eqStr "Developed by" then
        return some (← c.sub "company_name")
      else
        findDeveloper cs

/-- The shared shape of `_parse_metadata_esrb` / `_parse_metadata_pegi`
ratings loops: first `rating_name` whose `rating_system_name` matches. -/
def findRating (system : String) : List JSON → Except PyErr (Option JSON)
  | [] => .ok none
  | r :: rs => do
    if (← r.sub "rating_system_name").eqStr system then
      return some (← r.sub "rating_name")
    else
      findRating system rs

/-- `MobyGames._parse_metadata_esrb` (scraper.py:383-390). -/
def parse_metadata_esrb (json_data : List (String × JSON)) : Except PyErr JSON := do
  if !(JSON.hasKey json_data "ratings") ||
      ((json_data.lookup "ratings").getD .null).isNull then
    return .str DEFAULT_META_ESRB
  let ratings ← (← JSON.getKey json_data "ratings").iter
  match ← findRating "ESRB Rating" ratings with
  | some name => return name
  | none => return .str DEFAULT_META_ESRB

/-- `MobyGames._parse_metadata_pegi` (scraper.py:392-399). -/
def parse_metadata_pegi (json_data : List (String × JSON)) : Except PyErr JSON := do
  if !(JSON.hasKey json_data "ratings") ||
      ((json_data.lookup "ratings").getD .null).isNull then
    return .str ""
  let ratings ← (← JSON.getKey json_data "ratings").iter
  match ← findRating "PEGI Rating" ratings with
  | some name => return name
  | none => return .str ""

/-- The compiled regex `\d+\-(\d+)` (scraper.py:91): leftmost search for a
digit run, a literal dash and a captured second digit run; returns the
captured group.  (No backtracking subtleties arise: a maximal digit run
followed by anything but a dash can never begin a match.) -/
def regex_num_of_player_search (l : List Char) : Option String :=
  match l with
  | [] => none
  | c :: cs =>
    match tryHere (c :: cs) with
    | some g => some g
    | none => regex_num_of_player_search cs
where
  /-- Attempt a match anchored at the current position. -/
  tryHere (l : List Char) : Option String :=
    let d1 := l.takeWhile Char.isDigit
    if d1.isEmpty then none
    else
      match l.drop d1.length with
      | '-' :: rest =>
        let d2 := rest.takeWhile Char.isDigit
        if d2.isEmpty then none else some d2.asString
      | _ => none

/-- Python `str.isnumeric()` (restricted to ASCII digits, the only shapes the
attribute texts contain). -/
def pyIsNumeric (s : String) : Bool :=
  !s.toList.isEmpty && s.toList.all Char.isDigit

/-- Python `str.replace(old, new)` replaces every occurrence; Lean's
`String.replace` has the same semantics. -/
def pyReplace (s old new : String) : String :=
  s.replace old new

/-- `MobyGames._parse_nplayers` (scraper.py:421-437). -/
def parse_nplayers (attrib : JSON) : Except PyErr String := do
  let fields ← (match attrib with
    | .obj fs => Except.ok fs
    | _ => Except.error PyErr.typeError)
  if !(JSON.hasKey fields "attribute_name") ||
      !((fields.lookup "attribute_name").getD .null).truthy then
    return DEFAULT_META_NPLAYERS
  let nplayers0 := ((fields.lookup "attribute_name").getD .null).pyStr
  let nplayers1 := pyReplace nplayers0 " Players" ""
  let nplayers2 := pyReplace nplayers1 " Player" ""
  if pyIsNumeric nplayers2 then
    return nplayers2
  match regex_num_of_player_search nplayers2.toList with
  | none => return DEFAULT_META_NPLAYERS
  | some captured => return captured

/-- The shared `for attribute in json_data['attributes']` loop of
`_parse_metadata_nplayers` / `_parse_metadata_nplayers_online`: the first
attribute of the wanted category is parsed with `_parse_nplayers`. -/
def findNPlayers (category : Int) : List JSON → Except PyErr (Option String)
  | [] => .ok none
  | a :: rest => do
    if (← a.sub "attribute_category_id").eqInt category then
      return some (← parse_nplayers a)
    else
      findNPlayers category rest

/-- `MobyGames._parse_metadata_nplayers` (scraper.py:401-409). -/
def parse_metadata_nplayers (json_data : List (String × JSON)) : Except PyErr String := do
  if JSON.hasKey json_data "attributes" then
    let attributes ← ((json_data.lookup "attributes").getD .null).iter
    match ← findNPlayers 40 attributes with
    | some s => return s
    | none => return DEFAULT_META_NPLAYERS
  else
    return DEFAULT_META_NPLAYERS

/-- `MobyGames._parse_metadata_nplayers_online` (scraper.py:411-419). -/
def parse_metadata_nplayers_online (json_data : List (String × JSON)) :
    Except PyErr String := do
  if JSON.hasKey json_data "attributes" then
    let attributes ← ((json_data.lookup "attributes").getD .null).iter
    match ← findNPlayers 38 attributes with
    | some s => return s
    | none => return DEFAULT_META_NPLAYERS
  else
    return DEFAULT_META_NPLAYERS

/-- `MobyGames._parse_tag_videomodes` (scraper.py:470-480). -/
def parse_tag_videomodes (attribute_name : JSON) : Option String :=
  let videomode := attribute_name.pyStr
  if videomode = "Full screen" then none
  else if videomode = "Window" then none
  else some (pyReplace (pyReplace (pyReplace videomode "HDTV " "")
    "Progressive Scan" "") "×" "x")

/-- `MobyGames._parse_tag_videoresolution` (scraper.py:482-485). -/
def parse_tag_videoresolution (attribute_name : JSON) : Option String :=
  some (pyReplace attribute_name.pyStr "×" "x")

/-- `MobyGames._parse_tag_sound` (scraper.py:487-489). -/
def parse_tag_sound (attribute_name : JSON) : Option String :=
  some (pyLower attribute_name.pyStr)

/-- `MobyGames._parse_tag_controllers` (scraper.py:491-495). -/
def parse_tag_controllers (attribute_name : JSON) : Option String :=
  if attribute_name.pyStr = "Digital Joystick" then some "controller" else none

/-- `MobyGames._parse_tag_mp_modes` (scraper.py:497-501). -/
def parse_tag_mp_modes (attribute_name : JSON) : Option String :=
  let mode := attribute_name.pyStr
  if mode = "Free-for-all / One-on-one (VS)" then some "free-for-all"
  else some (pyLower mode)

/-- `MobyGames._parse_tag_input_devices` (scraper.py:503-507). -/
def parse_tag_input_devices (attribute_name : JSON) : Option String :=
  let device := attribute_name.pyStr
  if device = "Other Input Devices" then none else some (pyLower device)

/-- The body of the `for attribute in attributes` loop of
`_parse_metadata_tags` (scraper.py:445-467): the sequence of category tests
(each tag parser subscripts `attribute_name`), appending non-None tags. -/
def tagsLoop : List JSON → Except PyErr (List String)
  | [] => .ok []
  | a :: rest => do
    let catId ← a.sub "attribute_category_id"
    let tag ← (do
      let tag0 : Option String := none
      let tag1 ← (if catId.eqInt 2 then
          do return parse_tag_videomodes (← a.sub "attribute_name")
        else return tag0)
      let tag2 ← (if catId.eqInt 6 then
          do return parse_tag_input_devices (← a.sub "attribute_name")
        else return tag1)
      let tag3 ← (if catId.eqInt 45 then
          do return parse_tag_videoresolution (← a.sub "attribute_name")
        else return tag2)
      let tag4 ← (if catId.eqInt 27 then
          do return parse_tag_sound (← a.sub "attribute_name")
        else return tag3)
      let tag5 ← (if catId.eqInt 52 then
          do return parse_tag_mp_modes (← a.sub "attribute_name")
        else return tag4)
      if catId.eqInt 65 then
        do return parse_tag_controllers (← a.sub "attribute_name")
      else return tag5)
    let tailTags ← tagsLoop rest
    match tag with
    | some t => return t :: tailTags
    | none => return tailTags

/-- `MobyGames._parse_metadata_tags` (scraper.py:439-468). -/
def parse_metadata_tags (json_data : List (String × JSON)) : Except PyErr (List String) := do
  if !(JSON.hasKey json_data "attributes") then
    return []
  let attributes ← ((json_data.lookup "attributes").getD .null).iter
  tagsLoop attributes

/-- The `gamedata` dictionary assembled by `MobyGames.get_metadata`
(scraper.py:202-213), with each field typed by what its extractor returns. -/
structure GameData where
  title : JSON
  year : JSON
  genre : JSON
  plot : JSON
  rating : Option JSON
  developer : Option JSON
  esrb : JSON
  pegi : JSON
  nplayers : String
  nplayers_online : String
  tags : List String
  deriving Repr

/-- Modelled from the spec: `Scraper._new_gamedata_dic` of the external `akl`
base class — the empty/default `GameMetadata` record ("Every field has a
documented default value"). -/
def new_gamedata_dic : GameData where
  title := .str DEFAULT_META_TITLE
  year := .str DEFAULT_META_YEAR
  genre := .str DEFAULT_META_GENRE
  plot := .str DEFAULT_META_PLOT
  rating := none
  developer := none
  esrb := .str DEFAULT_META_ESRB
  pegi := .str ""
  nplayers := DEFAULT_META_NPLAYERS
  nplayers_online := DEFAULT_META_NPLAYERS
  tags := []

/-- The parsing phase of `MobyGames.get_metadata` (scraper.py:201-213): the
eleven field extractors applied to the primary game record `json_data` and the
platform-scoped record `extra_json_data`. -/
def parseGamedata (json_data extra_json_data : List (String × JSON))
    (scraper_platform : Int) : Except PyErr GameData := do
  let title := parse_metadata_title json_data
  let year ← parse_metadata_year json_data scraper_platform
  let genre ← parse_metadata_genre json_data
  let plot ← parse_metadata_plot json_data
  let rating := parse_metadata_rating json_data
  let developer ← parse_metadata_developer extra_json_data
  let esrb ← parse_metadata_esrb extra_json_data
  let pegi ← parse_metadata_pegi extra_json_data
  let nplayers ← parse_metadata_nplayers extra_json_data
  let nplayers_online ← parse_metadata_nplayers_online extra_json_data
  let tags ← parse_metadata_tags extra_json_data
  return { title, year, genre, plot, rating, developer, esrb, pegi,
           nplayers, nplayers_online, tags }

/-- One entry of the `games` array of a search response (only the fields the
search loop reads: `game_id`, `title`). -/
structure SearchItem where
  game_id : Int
  title : String
  deriving Repr, DecidableEq

/-- The candidate dictionary built by `MobyGames._search_candidates`
(scraper.py:309-321).  `display_long_name` stands for the long name of the
AKL platform the scraper platform converts back to (resolved through the
external platform catalog and passed in by the caller of the model). -/
structure Candidate where
  id : Int
  display_name : String
  platform : String
  scraper_platform : Int
  order : Nat
  deriving Repr, DecidableEq

/-- The candidate construction and score bumps of the search loop
(scraper.py:309-321). -/
def mkCandidate (search_term : String) (platform : String) (scraper_platform : Int)
    (long_name : String) (item : SearchItem) : Candidate :=
  let base : Candidate :=
    { id := item.game_id
      display_name := item.title ++ " (" ++ long_name ++ ")"
      platform := platform
      scraper_platform := scraper_platform
      order := 1 }
  let afterExact :=
    if pyLower item.title == pyLower search_term then
      { base with order := base.order + 2 }
    else base
  if strContains (pyLower item.title) (pyLower search_term) then
    { afterExact with order := afterExact.order + 1 }
  else afterExact

/-- Stable insertion of a candidate into a list sorted by descending `order`:
`x` goes in front of the first element whose score is not larger.  Together
with `sortByOrderDesc` this embeds Python's
`list.sort(key=..., reverse=True)`, which is a stable descending sort. -/
def insertDesc (x : Candidate) : List Candidate → List Candidate
  | [] => [x]
  | y :: ys => if x.order < y.order then y :: insertDesc x ys else x :: y :: ys

/-- `candidate_list.sort(key=lambda result: result['order'], reverse=True)`
(scraper.py:324): stable descending sort on the relevance score. -/
def sortByOrderDesc : List Candidate → List Candidate
  | [] => []
  | x :: xs => insertDesc x (sortByOrderDesc xs)

/-- The parse-and-rank phase of `MobyGames._search_candidates`
(scraper.py:302-326), applied to the decoded `games` array. -/
def search_candidates (search_term : String) (platform : String)
    (scraper_platform : Int) (long_name : String) (games : List SearchItem) :
    List Candidate :=
  sortByOrderDesc (games.map (mkCandidate search_term platform scraper_platform long_name))

/-- A Python value that is either an `int` or a `str`, with Python `==`
(values of different types are never equal).  `_search_candidates` compares
the scraper platform against the string literal `'0'`
(scraper.py:289) while `convert_AKL_platform_to_MobyGames` produces an `int`
(scraper.py:702-711), so the embedding keeps the type distinction. -/
inductive PyVal where
  | int (n : Int)
  | str (s : String)
  deriving Repr, DecidableEq

/-- Python `==` on `PyVal`: `0 == '0'` is `False`. -/
def PyVal.pyEq : PyVal → PyVal → Bool
  | .int a, .int b => a == b
  | .str a, .str b => a == b
  | _, _ => false

/-- Python `'{}'.format(value)`. -/
def PyVal.pyFormat : PyVal → String
  | .int n => toString n
  | .str s => s

/-- `urllib.parse.quote_plus` on the search term (ASCII level: unreserved
characters pass through, a space becomes `+`, everything else is
percent-encoded byte-wise). -/
def quote_plus (s : String) : String :=
  String.join (s.toList.map encodeChar)
where
  hexDigit (n : Nat) : Char :=
    if n < 10 then Char.ofNat (48 + n) else Char.ofNat (55 + (n - 10))
  encodeChar (c : Char) : String :=
    if c.isAlphanum || c = '-' || c = '_' || c = '.' || c = '~' then String.mk [c]
    else if c = ' ' then "+"
    else String.mk ['%', hexDigit (c.toNat / 16 % 16), hexDigit (c.toNat % 16)]

/-- `MobyGames.URL_games` (scraper.py:83). -/
def URL_games : String := "https://api.mobygames.com/v1/games"

/-- The query URL built by `MobyGames._search_candidates` (scraper.py:286-296):
the platform filter is meant to be dropped when the scraper platform is the
unknown sentinel, but the guard compares against the *string* `'0'`. -/
def searchCandidatesURL (api_key search_term : String) (scraper_platform : PyVal) :
    String :=
  let search_string_encoded := quote_plus search_term
  let url_tail :=
    if scraper_platform.pyEq (.str "0") then
      "?api_key=" ++ api_key ++ "&format=brief&title=" ++ search_string_encoded
    else
      "?api_key=" ++ api_key ++ "&format=brief&title=" ++ search_string_encoded ++
        "&platform=" ++ scraper_platform.pyFormat
  URL_games ++ url_tail

/-- `DEFAULT_PLAT_MOBYGAMES` (scraper.py:692). -/
def DEFAULT_PLAT_MOBYGAMES : Int := 0

/-- Modelled from the spec: `platforms.PLATFORM_MAME_COMPACT` of the external
`akl` library (the compact identifier of the arcade/MAME platform; the exact
spelling lives in `akl.platforms`). -/
def PLATFORM_MAME_COMPACT : String := "mame"

/-- `AKL_compact_platform_MobyGames_mapping` (scraper.py:722-812). -/
def AKL_compact_platform_MobyGames_mapping : List (String × Int) := [
  ("3do", 35), ("cpc", 60), ("a2600", 28), ("a5200", 33), ("a7800", 34),
  ("atari-8bit", 39), ("jaguar", 17), ("jaguarcd", 17), ("lynx", 18),
  ("atari-st", 24), ("wswan", 48), ("wswancolor", 49), ("loopy", 124),
  ("pv1000", 125), ("cvision", 29), ("c16", 115), ("c64", 27), ("amiga", 19),
  ("cd32", 56), ("cdtv", 83), ("vic20", 43), ("arcadia2001", 162),
  ("avision", 210), ("channelf", 76), ("fmtmarty", 102), ("superacan", 110),
  ("gp32", 108), ("vectrex", 37), ("odyssey2", 78), (PLATFORM_MAME_COMPACT, 143),
  ("ivision", 30), ("msdos", 2), ("msx", 57), ("msx2", 57), ("windows", 3),
  ("xbox", 13), ("xbox360", 69), ("xboxone", 142), ("pce", 40), ("pcecd", 45),
  ("pcfx", 59), ("sgx", 127), ("n3ds", 101), ("n64", 9), ("n64dd", 9),
  ("nds", 44), ("ndsi", 87), ("fds", 22), ("gb", 10), ("gba", 12),
  ("gbcolor", 11), ("gamecube", 14), ("nes", 22), ("pokemini", 152),
  ("snes", 15), ("switch", 203), ("vb", 38), ("wii", 82), ("wiiu", 132),
  ("ouya", 144), ("g7400", 128), ("studio2", 113), ("32x", 21),
  ("dreamcast", 8), ("gamegear", 25), ("sms", 26), ("megadrive", 16),
  ("megacd", 20), ("pico", 103), ("saturn", 23), ("sg1000", 114),
  ("x68k", 106), ("spectrum", 41), ("zx80", 118), ("zx81", 119),
  ("neocd", 54), ("ngp", 52), ("ngpcolor", 53), ("psx", 6), ("ps2", 7),
  ("ps3", 81), ("ps4", 141), ("psp", 46), ("psvita", 105), ("tigergame", 50),
  ("creativision", 212), ("vflash", 189), ("vsmile", 42), ("supervision", 109)]

/-- The relevant attributes of an AKL platform record as returned by the
external `platforms.get_AKL_platform` (compact identifier and optional alias
target).  Modelled from the spec: the platform catalog itself lives in the
external `akl` library ("internal platform identifier ... may have an alias
chain"). -/
structure AKLPlatform where
  compact_name : String
  aliasof : Option String
  deriving Repr, DecidableEq

/-- `convert_AKL_platform_to_MobyGames` (scraper.py:702-711), applied to the
AKL platform record the external catalog resolves the long name to. -/
def convert_AKL_platform_to_MobyGames (matching_platform : AKLPlatform) : Int :=
  match AKL_compact_platform_MobyGames_mapping.lookup matching_platform.compact_name with
  | some code => code
  | none =>
    match matching_platform.aliasof with
    | some alias_target =>
      match AKL_compact_platform_MobyGames_mapping.lookup alias_target with
      | some code => code
      | none => DEFAULT_PLAT_MOBYGAMES
    | none => DEFAULT_PLAT_MOBYGAMES

/-- `MobyGames_AKL_compact_platform_mapping` (scraper.py:814-816): the forward
table inverted by the module-level loop; a later pair with the same code
overwrites an earlier one. -/
def MobyGames_AKL_compact_platform_mapping : List (Int × String) :=
  AKL_compact_platform_MobyGames_mapping.foldl
    (fun inv kv => insertPair inv kv.1 kv.2) []
where
  /-- `dict[value] = key` on the association-list embedding of the dict:
  replace the binding if the key exists, else append. -/
  insertPair : List (Int × String) → String → Int → List (Int × String)
    | [], key, value => [(value, key)]
    | (v, k) :: rest, key, value =>
      if v == value then (v, key) :: rest else (v, k) :: insertPair rest key value

/-- `convert_MobyGames_platform_to_AKL_platform` (scraper.py:714-719) up to
the final catalog resolution: the compact name handed to the external
`platforms.get_AKL_platform_by_compact` (`PLATFORM_UNKNOWN_COMPACT` for
unknown codes, modelled as the string "unknown"). -/
def convert_MobyGames_platform_to_AKL_compact (moby_platform : Int) : String :=
  match MobyGames_AKL_compact_platform_mapping.lookup moby_platform with
  | some compact => compact
  | none => "unknown"

/-- The literal `api_key=` matched by the two compiled redaction regexes
`api_key=[^&]*&` and `api_key=[^&]*$` (scraper.py:92-93). -/
def apiKeyPat : List Char := "api_key=".toList

/-- Regex `api_key=[^&]*&` matches at the head of `l`: the literal prefix and
some later ampersand (the greedy `[^&]*` runs to the first `&`). -/
def fireA (l : List Char) : Bool :=
  apiKeyPat.isPrefixOf l && (l.drop 8).contains '&'

/-- The remainder after a head match of `api_key=[^&]*&`: everything past the
first ampersand after the literal. -/
def afterMatchA (l : List Char) : List Char :=
  (((l.drop 8).dropWhile (fun c => !(c == '&'))).drop 1)

/-- `re.sub('api_key=[^&]*&', 'api_key=***&', ...)` (scraper.py:611):
leftmost, non-overlapping replacement of every match. -/
def subA : List Char → List Char
  | [] => []
  | c :: cs =>
    if fireA (c :: cs) then
      "api_key=***&".toList ++ subA (afterMatchA (c :: cs))
    else
      c :: subA cs
termination_by l => l.length
decreasing_by
  · simp only [afterMatchA, List.length_drop]
    have h1 := (List.dropWhile_sublist (l := (c :: cs).drop 8)
      (fun c => !(c == '&'))).length_le
    simp only [List.length_drop, List.length_cons] at h1 ⊢
    omega
  · simp

/-- Regex `api_key=[^&]*$` matches at the head of `l`: the literal prefix and
no ampersand anywhere after it (the greedy `[^&]*` must reach end-of-string). -/
def fireB (l : List Char) : Bool :=
  apiKeyPat.isPrefixOf l && !((l.drop 8).contains '&')

/-- `re.sub('api_key=[^&]*$', 'api_key=***', ...)` (scraper.py:612): at most
one match, which swallows the rest of the string. -/
def subB : List Char → List Char
  | [] => []
  | c :: cs =>
    if fireB (c :: cs) then "api_key=***".toList
    else c :: subB cs

/-- `MobyGames._clean_URL_for_log` (scraper.py:609-616): first the
`&`-terminated substitution, then the end-of-string one. -/
def clean_URL_for_log (url : String) : String :=
  (subB (subA url.toList)).asString

/-- `MobyGames.resolve_asset_URL` (scraper.py:249-256): the scheme rewrite
tests only the first four characters (`url[0:4] == 'http'`). -/
def resolve_asset_URL (url : String) : String × String :=
  let url2 := if url.take 4 == "http" then "https" ++ url.drop 4 else url
  (url2, clean_URL_for_log url2)

/-- Modelled from the spec: the asset-kind constants of `akl.constants`
(the internal asset-kind enumeration; exact spellings live in the external
library, the claims depend only on the constants being distinct). -/
def ASSET_TITLE_ID : String := "s_title"

/-- Modelled from the spec: `constants.ASSET_SNAP_ID`. -/
def ASSET_SNAP_ID : String := "s_snap"

/-- Modelled from the spec: `constants.ASSET_BOXFRONT_ID`. -/
def ASSET_BOXFRONT_ID : String := "s_boxfront"

/-- Modelled from the spec: `constants.ASSET_BOXBACK_ID`. -/
def ASSET_BOXBACK_ID : String := "s_boxback"

/-- Modelled from the spec: `constants.ASSET_CARTRIDGE_ID`. -/
def ASSET_CARTRIDGE_ID : String := "s_cartridge"

/-- Modelled from the spec: `constants.ASSET_MANUAL_ID`. -/
def ASSET_MANUAL_ID : String := "s_manual"

/-- Modelled from the spec: `constants.ASSET_MAP_ID`. -/
def ASSET_MAP_ID : String := "s_map"

/-- `MobyGames.asset_name_mapping` (scraper.py:67-80): scan type (lower case)
to asset kind; `None` entries are Python `None`. -/
def asset_name_mapping : List (String × Option String) := [
  ("front cover", some ASSET_BOXFRONT_ID),
  ("back cover", some ASSET_BOXBACK_ID),
  ("media", some ASSET_CARTRIDGE_ID),
  ("manual", some ASSET_MANUAL_ID),
  ("spine/sides", none),
  ("other", none),
  ("advertisement", none),
  ("extras", none),
  ("inside cover", none),
  ("full cover", none),
  ("soundtrack", none),
  ("map", some ASSET_MAP_ID)]

/-- An asset dictionary (`_new_assetdata_dic` of the external base class,
modelled from the spec's `AssetRecord`: kind, display name, URLs; the kind
starts out unset/None). -/
structure AssetData where
  asset_ID : Option String
  display_name : String
  url_thumb : String
  url : String
  deriving Repr, DecidableEq

/-- One entry of the `screenshots` array of a screenshots response (the
fields `_retrieve_snap_assets` reads). -/
structure Screenshot where
  caption : String
  thumbnail_image : String
  image : String
  deriving Repr, DecidableEq

/-- The parse loop of `MobyGames._retrieve_snap_assets` (scraper.py:544-566):
captions containing "title" (case-insensitive) become title-screen assets,
everything else a generic snap. -/
def parseSnapAssets (screenshots : List Screenshot) : List AssetData :=
  screenshots.map fun image_data =>
    let caption_lower := pyLower image_data.caption
    { asset_ID :=
        if strContains caption_lower "title" then some ASSET_TITLE_ID
        else some ASSET_SNAP_ID
      display_name := image_data.caption
      url_thumb := image_data.thumbnail_image
      url := image_data.image }

/-- One entry of a `covers` array (the fields `_retrieve_cover_assets`
reads). -/
structure CoverData where
  scan_of : String
  description : String
  thumbnail_image : String
  image : String
  deriving Repr, DecidableEq

/-- One entry of the `cover_groups` array. -/
structure CoverGroup where
  countries : List String
  covers : List CoverData
  deriving Repr, DecidableEq

/-- The inner `for image_data in group_data['covers']` loop of
`_retrieve_cover_assets` (scraper.py:584-601).  The `asset_ID` local variable
is carried as `Option (Option String)`: `Option.none` means the Python name is
still unbound, in which case reading it raises `NameError`; an unmapped scan
type only logs a warning and leaves the variable as it was. -/
def processCovers (country_names : String) :
    List CoverData → Option (Option String) → List AssetData →
    Except PyErr (Option (Option String) × List AssetData)
  | [], asset_ID_var, acc => .ok (asset_ID_var, acc)
  | image_data :: rest, asset_ID_var, acc =>
    let asset_name := image_data.scan_of ++ " - " ++ image_data.description ++
      " (" ++ country_names ++ ")"
    let asset_ID_var2 :=
      match asset_name_mapping.lookup (pyLower image_data.scan_of) with
      | some kind => some kind
      | none => asset_ID_var
    match asset_ID_var2 with
    | none => .error (.nameError "asset_ID")
    | some kind =>
      let asset_data : AssetData :=
        { asset_ID := kind
          display_name := asset_name
          url_thumb := image_data.thumbnail_image
          url := image_data.image }
      processCovers country_names rest asset_ID_var2 (acc ++ [asset_data])

/-- The outer `for group_data in json_data['cover_groups']` loop of
`_retrieve_cover_assets` (scraper.py:582-601); the `asset_ID` variable
persists across groups. -/
def parseGroups : List CoverGroup → Option (Option String) → List AssetData →
    Except PyErr (Option (Option String) × List AssetData)
  | [], asset_ID_var, acc => .ok (asset_ID_var, acc)
  | group_data :: gs, asset_ID_var, acc => do
    let country_names := String.intercalate " / " group_data.countries
    let (asset_ID_var2, acc2) ←
      processCovers country_names group_data.covers asset_ID_var acc
    parseGroups gs asset_ID_var2 acc2

/-- The parse phase of `MobyGames._retrieve_cover_assets`
(scraper.py:580-605), applied to the decoded `cover_groups` array. -/
def parseCoverAssets (cover_groups : List CoverGroup) :
    Except PyErr (List AssetData) := do
  let (_, asset_list) ← parseGroups cover_groups none []
  return asset_list

/-- The per-session mutable state of a `MobyGames` scraper instance: the API
credential, the disabled flag, the two cache namespaces the claims exercise
(metadata and the internal full-asset-list), and two counters observing the
network: `netCalls` counts outbound HTTP requests, `supersetFetches` counts
network retrievals of the full asset superset of a candidate. -/
structure ScraperState where
  api_key : String
  scraper_disabled : Bool
  cacheMetadata : List (String × GameData)
  cacheInternal : List (String × List AssetData)
  netCalls : Nat
  supersetFetches : Nat
  deriving Repr

/-- Modelled from the spec: `Scraper._check_disk_cache` of the external base
class (`has(namespace, key)` of the CacheStore contract). -/
def cacheHas {α : Type} (entries : List (String × α)) (key : String) : Bool :=
  (entries.lookup key).isSome

/-- Modelled from the spec: `Scraper._update_disk_cache`
(`put(namespace, key, value)`; a new binding shadows an older one). -/
def cachePut {α : Type} (entries : List (String × α)) (key : String) (v : α) :
    List (String × α) :=
  (key, v) :: entries

/-- `MobyGames.get_metadata` (scraper.py:171-219): disabled short-circuit,
metadata-cache hit, or two network fetches (game record and platform-scoped
record) followed by parsing and a cache update.  The two JSON responses the
network would deliver are passed in as the oracle arguments. -/
def get_metadata (json_data extra_json_data : List (String × JSON))
    (cache_key : String) (scraper_platform : Int) (s : ScraperState) :
    ScraperState × Except PyErr GameData :=
  if s.scraper_disabled then
    (s, .ok new_gamedata_dic)
  else if cacheHas s.cacheMetadata cache_key then
    (s, .ok ((s.cacheMetadata.lookup cache_key).getD new_gamedata_dic))
  else
    let s2 := { s with netCalls := s.netCalls + 2 }
    match parseGamedata json_data extra_json_data scraper_platform with
    | .error e => (s2, .error e)
    | .ok gamedata =>
      ({ s2 with cacheMetadata := cachePut s2.cacheMetadata cache_key gamedata },
        .ok gamedata)

/-- `MobyGames._retrieve_all_assets` (scraper.py:511-533): internal-cache hit,
or two network fetches (screenshots and covers) whose parsed union is cached
as the candidate's full asset superset. -/
def retrieve_all_assets (snapResp : List Screenshot) (coverResp : List CoverGroup)
    (cache_key : String) (s : ScraperState) :
    ScraperState × Except PyErr (List AssetData) :=
  if cacheHas s.cacheInternal cache_key then
    (s, .ok ((s.cacheInternal.lookup cache_key).getD []))
  else
    let snap_assets := parseSnapAssets snapResp
    let s2 := { s with netCalls := s.netCalls + 2,
                       supersetFetches := s.supersetFetches + 1 }
    match parseCoverAssets coverResp with
    | .error e => (s2, .error e)
    | .ok cover_assets =>
      let asset_list := snap_assets ++ cover_assets
      ({ s2 with cacheInternal := cachePut s2.cacheInternal cache_key asset_list },
        .ok asset_list)

/-- `MobyGames.get_assets` (scraper.py:226-245): disabled short-circuit, then
the cached superset filtered in memory by the requested asset kind. -/
def get_assets (snapResp : List Screenshot) (coverResp : List CoverGroup)
    (cache_key : String) (asset_info_id : String) (s : ScraperState) :
    ScraperState × Except PyErr (List AssetData) :=
  if s.scraper_disabled then
    (s, .ok [])
  else
    match retrieve_all_assets snapResp coverResp cache_key s with
    | (s2, .error e) => (s2, .error e)
    | (s2, .ok all_asset_list) =>
      (s2, .ok (all_asset_list.filter (fun a => a.asset_ID == some asset_info_id)))

/-- A sequence of `get_assets` calls against the same candidate, one per
requested asset kind, threading the session state. -/
def runAssets (snapResp : List Screenshot) (coverResp : List CoverGroup)
    (cache_key : String) :
    List String → ScraperState → ScraperState × List (Except PyErr (List AssetData))
  | [], s => (s, [])
  | kind :: kinds, s =>
    let (s2, r) := get_assets snapResp coverResp cache_key kind s
    let (s3, rs) := runAssets snapResp coverResp cache_key kinds s2
    (s3, r :: rs)

/-- The `status_dic` error channel. -/
structure StatusDic where
  status : Bool
  dialog : Option String
  msg : String
  deriving Repr, DecidableEq

/-- Modelled from the spec: `kodi.KODI_MESSAGE_DIALOG` of the external `akl`
library (the dialog-kind marker placed in the status dictionary). -/
def KODI_MESSAGE_DIALOG : String := "KODI_MESSAGE_DIALOG"

/-- `MobyGames.check_before_scraping` (scraper.py:133-146): with a configured
credential the state and status are untouched; otherwise the scraper is
disabled and a failure with a message dialog is written into `status_dic`. -/
def check_before_scraping (s : ScraperState) (status_dic : StatusDic) :
    ScraperState × StatusDic :=
  if s.api_key ≠ "" then
    (s, status_dic)
  else
    ({ s with scraper_disabled := true },
      { status := false
        dialog := some KODI_MESSAGE_DIALOG
        msg := "AKL requires your MobyGames API key. Visit https://www.mobygames.com/info/api for directions about how to get your key and introduce the API key in AKL addon settings." })

/-- `MobyGames.get_candidates` (scraper.py:148-167): disabled short-circuit
returning Python `None` and leaving `status_dic` alone; otherwise the search
is one network round-trip whose decoded `games` array is ranked by
`_search_candidates`. -/
def get_candidates (search_term platform long_name : String)
    (matching_platform : AKLPlatform) (games : List SearchItem)
    (s : ScraperState) (status_dic : StatusDic) :
    ScraperState × StatusDic × Option (List Candidate) :=
  if s.scraper_disabled then
    (s, status_dic, none)
  else
    let scraper_platform := convert_AKL_platform_to_MobyGames matching_platform
    ({ s with netCalls := s.netCalls + 1 }, status_dic,
      some (search_candidates search_term platform scraper_platform long_name games))

/-- Modelled from the spec: `Scraper.RETRY_THRESHOLD` of the external base
class ("a fixed maximum retry count"; the exact value lives in `akl`). -/
def RETRY_THRESHOLD : Nat := 4

/-- `wait_till_time = datetime.now() + timedelta(seconds=960)`
(scraper.py:651), on an integer timeline in seconds. -/
def wait_till_time (now : Int) : Int := now + 960

/-- `auto_timer_ms = int((datetime.now() - wait_till_time).total_seconds()) * 1000`
(scraper.py:657): the timer handed to the yes/no dialog. -/
def auto_timer_ms (now_at_dialog wait_till : Int) : Int :=
  (now_at_dialog - wait_till) * 1000

/-- `amount_seconds = (datetime.now() - wait_till_time).total_seconds()`
(scraper.py:659). -/
def amount_seconds (now_at_wait wait_till : Int) : Int :=
  now_at_wait - wait_till

/-- `amount_seconds * 1000`, the argument passed to `_wait_for_API_request`
(scraper.py:660) when the user elects to wait. -/
def wait_arg_ms (now_at_wait wait_till : Int) : Int :=
  amount_seconds now_at_wait wait_till * 1000

/-- The remaining duration (in ms) from `now` until the computed rate-window
expiry — what the claim says the client sleeps. -/
def remaining_ms (now wait_till : Int) : Int :=
  (wait_till - now) * 1000

/-- Both regex substitutions of `_clean_URL_for_log`, on char lists. -/
def cleanChars (l : List Char) : List Char :=
  subB (subA l)

/-- A covers response flattened to `(country names, cover)` pairs in the
order the nested loops of `_retrieve_cover_assets` visit them. -/
def flatCovers (cover_groups : List CoverGroup) : List (String × CoverData) :=
  (cover_groups.map (fun g =>
    g.covers.map (fun cd => (String.intercalate " / " g.countries, cd)))).flatten

/-- The asset record the cover loop body builds for one cover once the
`asset_ID` variable holds `kind`. -/
def coverRecord (country_names : String) (image_data : CoverData)
    (kind : Option String) : AssetData :=
  { asset_ID := kind
    display_name := image_data.scan_of ++ " - " ++ image_data.description ++
      " (" ++ country_names ++ ")"
    url_thumb := image_data.thumbnail_image
    url := image_data.image }

/-- The value the `asset_ID` loop variable holds after processing a list of
covers, starting from a bound value `var`: every mapped scan type overwrites
it, unmapped ones leave it alone. -/
def kindAfter (var : Option String) : List (String × CoverData) → Option String
  | [] => var
  | (_, image_data) :: rest =>
    kindAfter
      (match asset_name_mapping.lookup (pyLower image_data.scan_of) with
       | some kind => kind
       | none => var) rest

/-- The record sequence the cover loop emits from a bound `asset_ID` value
`var`: a mapped cover carries its mapped kind, an unmapped cover carries the
kind left over from the most recent mapped cover (or `var`). -/
def expectedCovers (var : Option String) :
    List (String × CoverData) → List AssetData
  | [] => []
  | (country_names, image_data) :: rest =>
    let kind :=
      match asset_name_mapping.lookup (pyLower image_data.scan_of) with
      | some k => k
      | none => var
    coverRecord country_names image_data kind :: expectedCovers kind rest

theorem containsSub_cons_false {pat : List Char} {c : Char} {cs : List Char}
    (h : containsSub pat (c :: cs) = false) :
    pat.isPrefixOf (c :: cs) = false ∧ containsSub pat cs = false := by
  simpa [containsSub, Bool.or_eq_false_iff] using h

theorem subA_id : ∀ (l : List Char), containsSub apiKeyPat l = false → subA l = l := by
  intro l
  induction l with
  | nil => intro _; simp [subA]
  | cons c cs ih =>
    intro h
    obtain ⟨hpre, hrest⟩ := containsSub_cons_false h
    have hf : fireA (c :: cs) = false := by simp [fireA, hpre]
    simp only [subA, hf, Bool.false_eq_true, if_false]
    exact congrArg (c :: ·) (ih hrest)

theorem subB_id : ∀ (l : List Char), containsSub apiKeyPat l = false → subB l = l := by
  intro l
  induction l with
  | nil => intro _; simp [subB]
  | cons c cs ih =>
    intro h
    obtain ⟨hpre, hrest⟩ := containsSub_cons_false h
    have hf : fireB (c :: cs) = false := by simp [fireB, hpre]
    simp only [subB, hf, Bool.false_eq_true, if_false]
    exact congrArg (c :: ·) (ih hrest)

theorem cleanChars_id (l : List Char) (h : containsSub apiKeyPat l = false) :
    cleanChars l = l := by
  unfold cleanChars
  rw [subA_id l h, subB_id l h]

theorem asString_toList (s : String) : s.toList.asString = s := rfl

theorem clean_URL_for_log_id (url : String)
    (h : containsSub apiKeyPat url.toList = false) :
    clean_URL_for_log url = url := by
  unfold clean_URL_for_log
  rw [subA_id _ h, subB_id _ h, asString_toList]

/-- **C9** — The claim says `resolve_asset_URL` rewrites an insecure
`http://` scheme to `https://` and returns a URL of any other scheme —
including an already-secure one — unchanged.  The code only compares the
first four characters against `'http'` (scraper.py:252), so an already-secure
`https://...` URL also matches and is mangled into `httpss://...`; the
insecure and non-`http` cases behave as claimed. -/
theorem C9_https_scheme_mangled :
    resolve_asset_URL "https://cdn.mobygames.com/covers/box.png" =
      ("httpss://cdn.mobygames.com/covers/box.png",
        "httpss://cdn.mobygames.com/covers/box.png") ∧
    resolve_asset_URL "http://cdn.mobygames.com/covers/box.png" =
      ("https://cdn.mobygames.com/covers/box.png",
        "https://cdn.mobygames.com/covers/box.png") ∧
    resolve_asset_URL "ftp://host/file.png" =
      ("ftp://host/file.png", "ftp://host/file.png") := by
  have h1 : clean_URL_for_log "httpss://cdn.mobygames.com/covers/box.png" =
      "httpss://cdn.mobygames.com/covers/box.png" := by
    exact clean_URL_for_log_id _ (by decide)
  have h2 : clean_URL_for_log "https://cdn.mobygames.com/covers/box.png" =
      "https://cdn.mobygames.com/covers/box.png" := by
    exact clean_URL_for_log_id _ (by decide)
  have h3 : clean_URL_for_log "ftp://host/file.png" = "ftp://host/file.png" := by
    exact clean_URL_for_log_id _ (by decide)
  refine ⟨?_, ?_, ?_⟩
  · show ("httpss://cdn.mobygames.com/covers/box.png",
      clean_URL_for_log "httpss://cdn.mobygames.com/covers/box.png") = _
    rw [h1]
  · show ("https://cdn.mobygames.com/covers/box.png",
      clean_URL_for_log "https://cdn.mobygames.com/covers/box.png") = _
    rw [h2]
  · show ("ftp://host/file.png", clean_URL_for_log "ftp://host/file.png") = _
    rw [h3]

/-- **C2** — On a 429 with retries left and the user electing to wait, the
claim says the client sleeps the remaining duration until the rate-window
expiry (about 960 s ahead).  The code instead computes
`(datetime.now() - wait_till_time)` (scraper.py:657/659) — current time
*minus* the future expiry — so both the dialog auto-timer and the
milliseconds handed to the wait helper are the *negation* of the remaining
duration: negative, hence no 16-minute sleep happens before the retry. -/
theorem C2_rate_limit_wait_sign (t1 t2 : Int) (h1 : t1 ≤ t2)
    (h2 : t2 < wait_till_time t1) :
    wait_arg_ms t2 (wait_till_time t1) < 0 ∧
    wait_arg_ms t2 (wait_till_time t1) = - remaining_ms t2 (wait_till_time t1) ∧
    0 < remaining_ms t2 (wait_till_time t1) ∧
    auto_timer_ms t2 (wait_till_time t1) < 0 := by
  unfold wait_arg_ms amount_seconds remaining_ms auto_timer_ms wait_till_time at *
  refine ⟨?_, by ring, ?_, ?_⟩ <;> omega

theorem C2_rate_limit_wait_sign_witness :
    wait_arg_ms 0 (wait_till_time 0) < 0 ∧
    wait_arg_ms 0 (wait_till_time 0) = - remaining_ms 0 (wait_till_time 0) ∧
    0 < remaining_ms 0 (wait_till_time 0) ∧
    auto_timer_ms 0 (wait_till_time 0) < 0 :=
  C2_rate_limit_wait_sign 0 0 (by decide) (by decide)

/-- **C3** — The claim says a platform mapping to the unknown sentinel (0)
causes the platform filter to be omitted from the search query.  The
converter returns the *integer* 0 (scraper.py:692,702-711) while the guard in
`_search_candidates` compares against the *string* `'0'` (scraper.py:289);
Python's `0 == '0'` is false, so the URL for an unmapped platform does carry
`&platform=0`.  Only the (never produced) string `'0'` would omit it. -/
theorem C3_unknown_platform_filter_sent :
    convert_AKL_platform_to_MobyGames ⟨"unknown", none⟩ = DEFAULT_PLAT_MOBYGAMES ∧
    PyVal.pyEq (.int DEFAULT_PLAT_MOBYGAMES) (.str "0") = false ∧
    searchCandidatesURL "APIKEY" "castlevania" (.int DEFAULT_PLAT_MOBYGAMES) =
      "https://api.mobygames.com/v1/games?api_key=APIKEY&format=brief&title=castlevania&platform=0" ∧
    searchCandidatesURL "APIKEY" "castlevania" (.str "0") =
      "https://api.mobygames.com/v1/games?api_key=APIKEY&format=brief&title=castlevania" := by
  refine ⟨by decide, by decide, by decide, by decide⟩

/-- **C5** (counterexample) — The claim says `check_before_scraping` marks
the client disabled *without reporting a failure to the caller*.  With no
credential configured the code does mark the scraper disabled, but it *also*
writes a failure into the caller's status dictionary: `status` becomes false
and a message dialog is requested (scraper.py:140-146). -/
theorem C5_check_reports_failure_counterexample :
    (check_before_scraping ⟨"", false, [], [], 0, 0⟩ ⟨true, none, ""⟩).1.scraper_disabled
      = true ∧
    (check_before_scraping ⟨"", false, [], [], 0, 0⟩ ⟨true, none, ""⟩).2.status = false ∧
    (check_before_scraping ⟨"", false, [], [], 0, 0⟩ ⟨true, none, ""⟩).2.dialog =
      some KODI_MESSAGE_DIALOG := by
  refine ⟨by decide, by decide, by decide⟩

/-- **C5** (amended) — With no credential configured, `check_before_scraping`
disables the scraper *and* reports a failure (status false plus a message
dialog) to the caller; thereafter every operation of the disabled client is a
no-op that touches neither the state nor the status channel:
`get_candidates` returns Python `None`, `get_metadata` the default gamedata
record, `get_assets` the empty list — never an error. -/
theorem C5_disabled_noop_amended :
    (∀ (s : ScraperState) (st : StatusDic), s.api_key = "" →
      (check_before_scraping s st).1.scraper_disabled = true ∧
      (check_before_scraping s st).2.status = false ∧
      (check_before_scraping s st).2.dialog = some KODI_MESSAGE_DIALOG) ∧
    (∀ (term plat ln : String) (mp : AKLPlatform) (games : List SearchItem)
        (s : ScraperState) (st : StatusDic), s.scraper_disabled = true →
      get_candidates term plat ln mp games s st = (s, st, none)) ∧
    (∀ (j e : List (String × JSON)) (key : String) (sp : Int) (s : ScraperState),
      s.scraper_disabled = true →
      get_metadata j e key sp s = (s, .ok new_gamedata_dic)) ∧
    (∀ (sr : List Screenshot) (cr : List CoverGroup) (key aid : String)
        (s : ScraperState), s.scraper_disabled = true →
      get_assets sr cr key aid s = (s, .ok [])) := by
  refine ⟨?_, ?_, ?_, ?_⟩
  · intro s st h
    unfold check_before_scraping
    rw [if_neg (by simp [h])]
    exact ⟨rfl, rfl, rfl⟩
  · intro term plat ln mp games s st h
    unfold get_candidates
    rw [if_pos h]
  · intro j e key sp s h
    unfold get_metadata
    rw [if_pos h]
  · intro sr cr key aid s h
    unfold get_assets
    rw [if_pos h]

theorem C5_disabled_noop_amended_witness :
    ((check_before_scraping ⟨"", false, [], [], 0, 0⟩ ⟨true, none, ""⟩).1.scraper_disabled
        = true ∧
      (check_before_scraping ⟨"", false, [], [], 0, 0⟩ ⟨true, none, ""⟩).2.status = false ∧
      (check_before_scraping ⟨"", false, [], [], 0, 0⟩ ⟨true, none, ""⟩).2.dialog =
        some KODI_MESSAGE_DIALOG) ∧
    get_candidates "castlevania" "Nintendo NES" "Nintendo NES" ⟨"nes", none⟩ []
      ⟨"", true, [], [], 0, 0⟩ ⟨true, none, ""⟩ =
      (⟨"", true, [], [], 0, 0⟩, ⟨true, none, ""⟩, none) ∧
    get_metadata [] [] "castlevania|nes" 22 ⟨"", true, [], [], 0, 0⟩ =
      (⟨"", true, [], [], 0, 0⟩, .ok new_gamedata_dic) ∧
    get_assets [] [] "castlevania|nes" ASSET_SNAP_ID ⟨"", true, [], [], 0, 0⟩ =
      (⟨"", true, [], [], 0, 0⟩, .ok []) :=
  ⟨C5_disabled_noop_amended.1 ⟨"", false, [], [], 0, 0⟩ ⟨true, none, ""⟩ rfl,
   C5_disabled_noop_amended.2.1 "castlevania" "Nintendo NES" "Nintendo NES"
     ⟨"nes", none⟩ [] ⟨"", true, [], [], 0, 0⟩ ⟨true, none, ""⟩ rfl,
   C5_disabled_noop_amended.2.2.1 [] [] "castlevania|nes" 22
     ⟨"", true, [], [], 0, 0⟩ rfl,
   C5_disabled_noop_amended.2.2.2 [] [] "castlevania|nes" ASSET_SNAP_ID
     ⟨"", true, [], [], 0, 0⟩ rfl⟩

/-- **C6** (counterexample) — The claim says every metadata field extractor
is total on input where the source field is absent, returning the documented
default.  The year extractor subscripts `json_data['platforms']` with no
guard (scraper.py:333), so on a record without a `platforms` key it raises
`KeyError` instead of returning the default year. -/
theorem C6_year_raises_counterexample :
    parse_metadata_year [] 22 = .error (.keyError "platforms") := rfl

/-- **C6** (amended) — Per-extractor totality as the code actually behaves.
On an *absent* source field every extractor returns its default — except the
year extractor, which raises `KeyError`.  On a *null* source field the plot,
rating, ESRB and PEGI extractors return their defaults, but the title
extractor passes the null through instead of the default, and the genre,
player-count, online-player-count and tag extractors raise `TypeError`
(they guard only key presence, then iterate the null). -/
theorem C6_extractor_defaults_amended :
    (∀ j : List (String × JSON), j.lookup "title" = none →
      parse_metadata_title j = .str DEFAULT_META_TITLE) ∧
    (∀ j : List (String × JSON), j.lookup "title" = some .null →
      parse_metadata_title j = .null) ∧
    (∀ (j : List (String × JSON)) (sp : Int), j.lookup "platforms" = none →
      parse_metadata_year j sp = .error (.keyError "platforms")) ∧
    (∀ j : List (String × JSON), j.lookup "genres" = none →
      parse_metadata_genre j = .ok (.str DEFAULT_META_GENRE)) ∧
    (∀ j : List (String × JSON), j.lookup "genres" = some .null →
      parse_metadata_genre j = .error .typeError) ∧
    (∀ j : List (String × JSON), j.lookup "description" = none →
      parse_metadata_plot j = .ok (.str DEFAULT_META_PLOT)) ∧
    (∀ j : List (String × JSON), j.lookup "description" = some .null →
      parse_metadata_plot j = .ok (.str DEFAULT_META_PLOT)) ∧
    (∀ j : List (String × JSON), j.lookup "moby_score" = none →
      parse_metadata_rating j = none) ∧
    (∀ j : List (String × JSON), j.lookup "moby_score" = some .null →
      parse_metadata_rating j = none) ∧
    (∀ j : List (String × JSON), j.lookup "releases" = none →
      parse_metadata_developer j = .ok none) ∧
    (∀ j : List (String × JSON), j.lookup "releases" = some .null →
      parse_metadata_developer j = .error .typeError) ∧
    (∀ j : List (String × JSON), j.lookup "ratings" = none →
      parse_metadata_esrb j = .ok (.str DEFAULT_META_ESRB)) ∧
    (∀ j : List (String × JSON), j.lookup "ratings" = some .null →
      parse_metadata_esrb j = .ok (.str DEFAULT_META_ESRB)) ∧
    (∀ j : List (String × JSON), j.lookup "ratings" = none →
      parse_metadata_pegi j = .ok (.str "")) ∧
    (∀ j : List (String × JSON), j.lookup "ratings" = some .null →
      parse_metadata_pegi j = .ok (.str "")) ∧
    (∀ j : List (String × JSON), j.lookup "attributes" = none →
      parse_metadata_nplayers j = .ok DEFAULT_META_NPLAYERS) ∧
    (∀ j : List (String × JSON), j.lookup "attributes" = some .null →
      parse_metadata_nplayers j = .error .typeError) ∧
    (∀ j : List (String × JSON), j.lookup "attributes" = none →
      parse_metadata_nplayers_online j = .ok DEFAULT_META_NPLAYERS) ∧
    (∀ j : List (String × JSON), j.lookup "attributes" = some .null →
      parse_metadata_nplayers_online j = .error .typeError) ∧
    (∀ j : List (String × JSON), j.lookup "attributes" = none →
      parse_metadata_tags j = .ok []) ∧
    (∀ j : List (String × JSON), j.lookup "attributes" = some .null →
      parse_metadata_tags j = .error .typeError) := by
  refine ⟨?_, ?_, ?_, ?_, ?_, ?_, ?_, ?_, ?_, ?_, ?_, ?_, ?_, ?_, ?_, ?_, ?_,
    ?_, ?_, ?_, ?_⟩ <;> intro j
  · intro h; simp [parse_metadata_title, JSON.hasKey, h] <;> rfl
  · intro h; simp [parse_metadata_title, JSON.hasKey, h] <;> rfl
  · intro sp h
    unfold parse_metadata_year
    rw [show JSON.getKey j "platforms" = .error (.keyError "platforms") by
      simp [JSON.getKey, h]]
    rfl
  · intro h; simp [parse_metadata_genre, JSON.hasKey, h] <;> rfl
  · intro h
    unfold parse_metadata_genre
    rw [if_pos (by simp [JSON.hasKey, h])]
    rw [show JSON.getKey j "genres" = .ok .null by simp [JSON.getKey, h]]
    rfl
  · intro h; simp [parse_metadata_plot, JSON.hasKey, h] <;> rfl
  · intro h; simp [parse_metadata_plot, JSON.hasKey, h, JSON.isNull] <;> rfl
  · intro h; simp [parse_metadata_rating, JSON.hasKey, h] <;> rfl
  · intro h; simp [parse_metadata_rating, JSON.hasKey, h, JSON.isNull] <;> rfl
  · intro h; simp [parse_metadata_developer, JSON.hasKey, h] <;> rfl
  · intro h
    unfold parse_metadata_developer
    rw [if_neg (by simp [JSON.hasKey, h])]
    rw [show JSON.getKey j "releases" = .ok .null by simp [JSON.getKey, h]]
    rfl
  · intro h; simp [parse_metadata_esrb, JSON.hasKey, h] <;> rfl
  · intro h; simp [parse_metadata_esrb, JSON.hasKey, h, JSON.isNull] <;> rfl
  · intro h; simp [parse_metadata_pegi, JSON.hasKey, h] <;> rfl
  · intro h; simp [parse_metadata_pegi, JSON.hasKey, h, JSON.isNull] <;> rfl
  · intro h; simp [parse_metadata_nplayers, JSON.hasKey, h] <;> rfl
  · intro h; simp [parse_metadata_nplayers, JSON.hasKey, h, JSON.iter] <;> rfl
  · intro h; simp [parse_metadata_nplayers_online, JSON.hasKey, h] <;> rfl
  · intro h; simp [parse_metadata_nplayers_online, JSON.hasKey, h, JSON.iter] <;> rfl
  · intro h; simp [parse_metadata_tags, JSON.hasKey, h] <;> rfl
  · intro h; simp [parse_metadata_tags, JSON.hasKey, h, JSON.iter] <;> rfl

theorem C6_extractor_defaults_amended_witness :
    parse_metadata_title [] = .str DEFAULT_META_TITLE ∧
    parse_metadata_title [("title", .null)] = .null ∧
    parse_metadata_year [] 22 = .error (.keyError "platforms") ∧
    parse_metadata_genre [] = .ok (.str DEFAULT_META_GENRE) ∧
    parse_metadata_genre [("genres", .null)] = .error .typeError ∧
    parse_metadata_plot [] = .ok (.str DEFAULT_META_PLOT) ∧
    parse_metadata_plot [("description", .null)] = .ok (.str DEFAULT_META_PLOT) ∧
    parse_metadata_rating [] = none ∧
    parse_metadata_rating [("moby_score", .null)] = none ∧
    parse_metadata_developer [] = .ok none ∧
    parse_metadata_developer [("releases", .null)] = .error .typeError ∧
    parse_metadata_esrb [] = .ok (.str DEFAULT_META_ESRB) ∧
    parse_metadata_esrb [("ratings", .null)] = .ok (.str DEFAULT_META_ESRB) ∧
    parse_metadata_pegi [] = .ok (.str "") ∧
    parse_metadata_pegi [("ratings", .null)] = .ok (.str "") ∧
    parse_metadata_nplayers [] = .ok DEFAULT_META_NPLAYERS ∧
    parse_metadata_nplayers [("attributes", .null)] = .error .typeError ∧
    parse_metadata_nplayers_online [] = .ok DEFAULT_META_NPLAYERS ∧
    parse_metadata_nplayers_online [("attributes", .null)] = .error .typeError ∧
    parse_metadata_tags [] = .ok [] ∧
    parse_metadata_tags [("attributes", .null)] = .error .typeError :=
  ⟨C6_extractor_defaults_amended.1 [] rfl,
   C6_extractor_defaults_amended.2.1 [("title", .null)] rfl,
   C6_extractor_defaults_amended.2.2.1 [] 22 rfl,
   C6_extractor_defaults_amended.2.2.2.1 [] rfl,
   C6_extractor_defaults_amended.2.2.2.2.1 [("genres", .null)] rfl,
   C6_extractor_defaults_amended.2.2.2.2.2.1 [] rfl,
   C6_extractor_defaults_amended.2.2.2.2.2.2.1 [("description", .null)] rfl,
   C6_extractor_defaults_amended.2.2.2.2.2.2.2.1 [] rfl,
   C6_extractor_defaults_amended.2.2.2.2.2.2.2.2.1 [("moby_score", .null)] rfl,
   C6_extractor_defaults_amended.2.2.2.2.2.2.2.2.2.1 [] rfl,
   C6_extractor_defaults_amended.2.2.2.2.2.2.2.2.2.2.1 [("releases", .null)] rfl,
   C6_extractor_defaults_amended.2.2.2.2.2.2.2.2.2.2.2.1 [] rfl,
   C6_extractor_defaults_amended.2.2.2.2.2.2.2.2.2.2.2.2.1 [("ratings", .null)] rfl,
   C6_extractor_defaults_amended.2.2.2.2.2.2.2.2.2.2.2.2.2.1 [] rfl,
   C6_extractor_defaults_amended.2.2.2.2.2.2.2.2.2.2.2.2.2.2.1 [("ratings", .null)] rfl,
   C6_extractor_defaults_amended.2.2.2.2.2.2.2.2.2.2.2.2.2.2.2.1 [] rfl,
   C6_extractor_defaults_amended.2.2.2.2.2.2.2.2.2.2.2.2.2.2.2.2.1
     [("attributes", .null)] rfl,
   C6_extractor_defaults_amended.2.2.2.2.2.2.2.2.2.2.2.2.2.2.2.2.2.1 [] rfl,
   C6_extractor_defaults_amended.2.2.2.2.2.2.2.2.2.2.2.2.2.2.2.2.2.2.1
     [("attributes", .null)] rfl,
   C6_extractor_defaults_amended.2.2.2.2.2.2.2.2.2.2.2.2.2.2.2.2.2.2.2.1 [] rfl,
   C6_extractor_defaults_amended.2.2.2.2.2.2.2.2.2.2.2.2.2.2.2.2.2.2.2.2
     [("attributes", .null)] rfl⟩

theorem exceptBind_ok {α β : Type} (a : α) (f : α → Except PyErr β) :
    (Except.ok a >>= f) = f a := rfl

theorem kindAfter_append (v : Option String) (xs ys : List (String × CoverData)) :
    kindAfter v (xs ++ ys) = kindAfter (kindAfter v xs) ys := by
  induction xs generalizing v with
  | nil => rfl
  | cons p rest ih =>
    obtain ⟨cn, cd⟩ := p
    simp only [List.cons_append, kindAfter]
    exact ih _

theorem expectedCovers_append (v : Option String) (xs ys : List (String × CoverData)) :
    expectedCovers v (xs ++ ys) =
      expectedCovers v xs ++ expectedCovers (kindAfter v xs) ys := by
  induction xs generalizing v with
  | nil => rfl
  | cons p rest ih =>
    obtain ⟨cn, cd⟩ := p
    simp only [List.cons_append, expectedCovers, kindAfter, List.append_eq]
    rw [ih]

theorem processCovers_some (covers : List CoverData) (cn : String)
    (v : Option String) (acc : List AssetData) :
    processCovers cn covers (some v) acc =
      .ok (some (kindAfter v (covers.map (fun cd => (cn, cd)))),
        acc ++ expectedCovers v (covers.map (fun cd => (cn, cd)))) := by
  induction covers generalizing v acc with
  | nil => simp [processCovers, expectedCovers, kindAfter]
  | cons cd rest ih =>
    simp only [processCovers, List.map_cons, expectedCovers, kindAfter]
    cases hl : asset_name_mapping.lookup (pyLower cd.scan_of) with
    | none =>
      simp only [hl]
      rw [ih]
      simp [coverRecord]
    | some kind =>
      simp only [hl]
      rw [ih]
      simp [coverRecord]

theorem parseGroups_some (gs : List CoverGroup) (v : Option String)
    (acc : List AssetData) :
    parseGroups gs (some v) acc =
      .ok (some (kindAfter v (flatCovers gs)), acc ++ expectedCovers v (flatCovers gs)) := by
  induction gs generalizing v acc with
  | nil => simp [parseGroups, flatCovers, expectedCovers, kindAfter]
  | cons g rest ih =>
    have hflat : flatCovers (g :: rest) =
        g.covers.map (fun cd => (String.intercalate " / " g.countries, cd)) ++
          flatCovers rest := by
      simp [flatCovers]
    simp only [parseGroups, hflat]
    rw [processCovers_some, exceptBind_ok]
    rw [ih]
    rw [kindAfter_append, expectedCovers_append, List.append_assoc]

theorem parseGroups_none_head_mapped (gs : List CoverGroup)
    (h : ∀ p ∈ (flatCovers gs).head?,
      (asset_name_mapping.lookup (pyLower p.2.scan_of)).isSome = true) :
    ∃ v2, parseGroups gs none [] = .ok (v2, expectedCovers none (flatCovers gs)) := by
  induction gs with
  | nil => exact ⟨none, rfl⟩
  | cons g rest ih =>
    have hflat : flatCovers (g :: rest) =
        g.covers.map (fun cd => (String.intercalate " / " g.countries, cd)) ++
          flatCovers rest := by
      simp [flatCovers]
    cases hc : g.covers with
    | nil =>
      have hflat2 : flatCovers (g :: rest) = flatCovers rest := by
        rw [hflat, hc]
        rfl
      obtain ⟨v2, hrec⟩ := ih (by rw [← hflat2]; exact h)
      refine ⟨v2, ?_⟩
      simp only [parseGroups, hc, processCovers, exceptBind_ok]
      rw [hrec, hflat2]
    | cons cd more =>
      have hhead : (flatCovers (g :: rest)).head? =
          some (String.intercalate " / " g.countries, cd) := by
        rw [hflat, hc]
        rfl
      have hmapped := h _ (by rw [hhead]; rfl)
      obtain ⟨kind, hk⟩ := Option.isSome_iff_exists.mp hmapped
      refine ⟨some (kindAfter kind
        (more.map (fun c => (String.intercalate " / " g.countries, c)) ++
          flatCovers rest)), ?_⟩
      simp only [parseGroups, hc, processCovers, hk]
      rw [processCovers_some, exceptBind_ok]
      rw [parseGroups_some]
      rw [hflat, hc]
      simp only [List.map_cons, List.cons_append, expectedCovers, kindAfter, hk,
        List.append_eq]
      rw [kindAfter_append, expectedCovers_append]
      simp [coverRecord]

/-- **C10** (counterexample) — The claim says a cover with an unmapped scan
type is *still emitted* carrying the kind left over from a previous loop
iteration.  When the unmapped cover is the first one processed there is no
previous iteration: the `asset_ID` local was never assigned and reading it
raises `NameError`, so nothing is emitted at all. -/
theorem C10_first_cover_unmapped_counterexample :
    parseCoverAssets
      [{ countries := ["United States"],
         covers := [{ scan_of := "Poster", description := "ad",
                      thumbnail_image := "thumb1", image := "img1" }] }] =
      .error (.nameError "asset_ID") := rfl

/-- **C10** (amended) — For every covers response whose first processed cover
has a mapped (lower-cased) scan type, every cover is emitted: a mapped cover
carries its mapped asset kind and an unmapped cover is logged as
unimplemented and still emitted carrying whatever kind the lookup variable
held from the most recent mapped cover.  (When the very first cover is
unmapped the loop instead raises `NameError` — see the counterexample.) -/
theorem C10_cover_kind_amended (cover_groups : List CoverGroup)
    (h : ∀ p ∈ (flatCovers cover_groups).head?,
      (asset_name_mapping.lookup (pyLower p.2.scan_of)).isSome = true) :
    parseCoverAssets cover_groups =
      .ok (expectedCovers none (flatCovers cover_groups)) := by
  obtain ⟨v2, hrec⟩ := parseGroups_none_head_mapped cover_groups h
  unfold parseCoverAssets
  rw [hrec]
  rfl

theorem C10_cover_kind_amended_witness :
    parseCoverAssets
      [{ countries := ["United States"],
         covers := [{ scan_of := "Front Cover", description := "cover art",
                      thumbnail_image := "thumb1", image := "img1" },
                    { scan_of := "Poster", description := "ad",
                      thumbnail_image := "thumb2", image := "img2" }] }] =
      .ok (expectedCovers none (flatCovers
        [{ countries := ["United States"],
           covers := [{ scan_of := "Front Cover", description := "cover art",
                        thumbnail_image := "thumb1", image := "img1" },
                      { scan_of := "Poster", description := "ad",
                        thumbnail_image := "thumb2", image := "img2" }] }])) :=
  C10_cover_kind_amended _ (by intro p hp; simp [flatCovers] at hp; subst hp; decide)

theorem insertDesc_perm (x : Candidate) (l : List Candidate) :
    (insertDesc x l).Perm (x :: l) := by
  induction l with
  | nil => simp [insertDesc]
  | cons y ys ih =>
    simp only [insertDesc]
    split
    · exact (ih.cons y).trans (List.Perm.swap x y ys)
    · exact List.Perm.refl _

theorem sortByOrderDesc_perm (l : List Candidate) :
    (sortByOrderDesc l).Perm l := by
  induction l with
  | nil => exact List.Perm.refl _
  | cons x xs ih => exact (insertDesc_perm x (sortByOrderDesc xs)).trans (ih.cons x)

theorem insertDesc_pairwise (x : Candidate) (l : List Candidate)
    (h : List.Pairwise (fun a b => b.order ≤ a.order) l) :
    List.Pairwise (fun a b => b.order ≤ a.order) (insertDesc x l) := by
  induction l with
  | nil => simp [insertDesc]
  | cons y ys ih =>
    simp only [insertDesc]
    rw [List.pairwise_cons] at h
    split
    · rename_i hlt
      rw [List.pairwise_cons]
      refine ⟨?_, ih h.2⟩
      intro z hz
      have hz2 := (insertDesc_perm x ys).mem_iff.mp hz
      rcases List.mem_cons.mp hz2 with hzx | hzy
      · subst hzx; omega
      · exact h.1 z hzy
    · rename_i hge
      rw [List.pairwise_cons]
      refine ⟨?_, List.pairwise_cons.mpr h⟩
      intro z hz
      rcases List.mem_cons.mp hz with hzy | hzys
      · subst hzy; omega
      · have := h.1 z hzys; omega

theorem sortByOrderDesc_pairwise (l : List Candidate) :
    List.Pairwise (fun a b => b.order ≤ a.order) (sortByOrderDesc l) := by
  induction l with
  | nil => simp [sortByOrderDesc]
  | cons x xs ih => exact insertDesc_pairwise x (sortByOrderDesc xs) ih

theorem filter_insertDesc (x : Candidate) (l : List Candidate) (k : Nat) :
    (insertDesc x l).filter (fun c => c.order == k) =
      if x.order == k then x :: l.filter (fun c => c.order == k)
      else l.filter (fun c => c.order == k) := by
  induction l with
  | nil => cases hx : (x.order == k) <;> simp [insertDesc, List.filter_cons, hx]
  | cons y ys ih =>
    simp only [insertDesc]
    split
    · rename_i hlt
      cases hx : (x.order == k) with
      | false => simp [List.filter_cons, hx, ih]
      | true =>
        have hxk : x.order = k := by simpa using hx
        have hy : (y.order == k) = false := by
          have hne : y.order ≠ k := by omega
          simpa using hne
        simp [List.filter_cons, hx, hy, ih]
    · simp [List.filter_cons]

theorem filter_sortByOrderDesc (l : List Candidate) (k : Nat) :
    (sortByOrderDesc l).filter (fun c => c.order == k) =
      l.filter (fun c => c.order == k) := by
  induction l with
  | nil => rfl
  | cons x xs ih =>
    simp only [sortByOrderDesc, filter_insertDesc, ih, List.filter_cons]

/-- **C4** — For every search term and result list: each candidate's
relevance score is 1, plus 2 for a case-insensitive exact title match, plus 1
more when the term occurs case-insensitively in the title; the ranked output
is a permutation of the scored input, sorted descending by score, and for any
score value the candidates of that score appear in exactly the input order
(stability of `list.sort(..., reverse=True)`). -/
theorem C4_search_ranking (search_term platform long_name : String)
    (scraper_platform : Int) (games : List SearchItem) :
    (∀ it ∈ games,
      (mkCandidate search_term platform scraper_platform long_name it).order =
        1 + (if pyLower it.title == pyLower search_term then 2 else 0) +
          (if strContains (pyLower it.title) (pyLower search_term) then 1 else 0)) ∧
    (search_candidates search_term platform scraper_platform long_name games).Perm
      (games.map (mkCandidate search_term platform scraper_platform long_name)) ∧
    List.Pairwise (fun a b => b.order ≤ a.order)
      (search_candidates search_term platform scraper_platform long_name games) ∧
    (∀ k : Nat,
      (search_candidates search_term platform scraper_platform long_name games).filter
          (fun c => c.order == k) =
        (games.map (mkCandidate search_term platform scraper_platform long_name)).filter
          (fun c => c.order == k)) := by
  refine ⟨?_, ?_, ?_, ?_⟩
  · intro it _
    unfold mkCandidate
    by_cases h1 : (pyLower it.title == pyLower search_term) = true <;>
      by_cases h2 : strContains (pyLower it.title) (pyLower search_term) = true <;>
        simp [h1, h2]
  · exact sortByOrderDesc_perm _
  · exact sortByOrderDesc_pairwise _
  · intro k
    exact filter_sortByOrderDesc _ k

theorem C4_search_ranking_witness :
    ((mkCandidate "castlevania" "Nintendo NES" 22 "NES"
        ⟨1, "Castlevania"⟩).order =
      1 + (if pyLower "Castlevania" == pyLower "castlevania" then 2 else 0) +
        (if strContains (pyLower "Castlevania") (pyLower "castlevania") then 1
          else 0)) ∧
    (search_candidates "castlevania" "Nintendo NES" 22 "NES"
        [⟨1, "Castlevania"⟩, ⟨2, "Akumajou Dracula"⟩,
         ⟨3, "Castlevania Chronicles"⟩]).Perm
      ([⟨1, "Castlevania"⟩, ⟨2, "Akumajou Dracula"⟩,
        ⟨3, "Castlevania Chronicles"⟩].map
        (mkCandidate "castlevania" "Nintendo NES" 22 "NES")) ∧
    (search_candidates "castlevania" "Nintendo NES" 22 "NES"
        [⟨1, "Castlevania"⟩, ⟨2, "Akumajou Dracula"⟩,
         ⟨3, "Castlevania Chronicles"⟩]).filter (fun c => c.order == 4) =
      ([⟨1, "Castlevania"⟩, ⟨2, "Akumajou Dracula"⟩,
        ⟨3, "Castlevania Chronicles"⟩].map
        (mkCandidate "castlevania" "Nintendo NES" 22 "NES")).filter
        (fun c => c.order == 4) :=
  ⟨(C4_search_ranking "castlevania" "Nintendo NES" "NES" 22
      [⟨1, "Castlevania"⟩, ⟨2, "Akumajou Dracula"⟩,
       ⟨3, "Castlevania Chronicles"⟩]).1 ⟨1, "Castlevania"⟩
      (List.mem_cons_self _ _),
   (C4_search_ranking "castlevania" "Nintendo NES" "NES" 22
      [⟨1, "Castlevania"⟩, ⟨2, "Akumajou Dracula"⟩,
       ⟨3, "Castlevania Chronicles"⟩]).2.1,
   (C4_search_ranking "castlevania" "Nintendo NES" "NES" 22
      [⟨1, "Castlevania"⟩, ⟨2, "Akumajou Dracula"⟩,
       ⟨3, "Castlevania Chronicles"⟩]).2.2.2 4⟩

theorem runAssets_cached (sr : List Screenshot) (cr : List CoverGroup)
    (key : String) (all : List AssetData) :
    ∀ (kinds : List String) (s : ScraperState),
      s.scraper_disabled = false →
      s.cacheInternal.lookup key = some all →
      runAssets sr cr key kinds s =
        (s, kinds.map (fun kind =>
          .ok (all.filter (fun a => a.asset_ID == some kind)))) := by
  intro kinds
  induction kinds with
  | nil => intro s _ _; rfl
  | cons kind rest ih =>
    intro s hd hl
    have h1 : get_assets sr cr key kind s =
        (s, .ok (all.filter (fun a => a.asset_ID == some kind))) := by
      unfold get_assets retrieve_all_assets
      rw [if_neg (by simp [hd])]
      rw [if_pos (by simp [cacheHas, hl])]
      simp [hl]
    simp only [runAssets, h1]
    rw [ih s hd hl]
    rfl

/-- **C1** — At most one network retrieval per (namespace, key) pair.
(a) After any `get_metadata` call that returns a gamedata record, repeating
the call for the same cache key returns the same record with the session
state — in particular the outbound-call counter — unchanged: the stored
record is served from the metadata namespace.  (b) From a state without the
candidate's cached asset superset, a run of `get_assets` calls for any
non-empty list of asset kinds fetches the superset from the network exactly
once (`supersetFetches` rises by exactly 1, `netCalls` by the 2 requests of
that single retrieval, independent of the number of kinds), and every call
returns the in-memory filtering of that one cached superset by its kind.
The disk-cache primitives of the external base class are modelled from the
spec's CacheStore contract. -/
theorem C1_session_cache_dedup :
    (∀ (j e : List (String × JSON)) (key : String) (sp : Int) (s : ScraperState)
        (r : ScraperState × Except PyErr GameData),
      get_metadata j e key sp s = r →
      (∃ gd, r.2 = .ok gd) →
      get_metadata j e key sp r.1 = r) ∧
    (∀ (sr : List Screenshot) (cr : List CoverGroup) (key : String)
        (s : ScraperState) (cvs : List AssetData) (kinds : List String),
      s.scraper_disabled = false →
      cacheHas s.cacheInternal key = false →
      parseCoverAssets cr = .ok cvs →
      kinds ≠ [] →
      runAssets sr cr key kinds s =
        ({ s with netCalls := s.netCalls + 2,
                  supersetFetches := s.supersetFetches + 1,
                  cacheInternal := cachePut s.cacheInternal key
                    (parseSnapAssets sr ++ cvs) },
          kinds.map (fun kind =>
            .ok ((parseSnapAssets sr ++ cvs).filter
              (fun a => a.asset_ID == some kind))))) := by
  constructor
  · intro j e key sp s r hrun hok
    by_cases hd : s.scraper_disabled = true
    · have hstep : get_metadata j e key sp s = (s, .ok new_gamedata_dic) := by
        unfold get_metadata; rw [if_pos hd]
      rw [hstep] at hrun
      subst hrun
      unfold get_metadata
      rw [if_pos hd]
    · rw [Bool.not_eq_true] at hd
      by_cases hc : cacheHas s.cacheMetadata key = true
      · have hstep : get_metadata j e key sp s =
            (s, .ok ((s.cacheMetadata.lookup key).getD new_gamedata_dic)) := by
          unfold get_metadata; rw [if_neg (by simp [hd]), if_pos hc]
        rw [hstep] at hrun
        subst hrun
        unfold get_metadata
        rw [if_neg (by simp [hd]), if_pos hc]
      · rw [Bool.not_eq_true] at hc
        cases hp : parseGamedata j e sp with
        | error err =>
          have hstep : get_metadata j e key sp s =
              ({ s with netCalls := s.netCalls + 2 }, .error err) := by
            unfold get_metadata
            rw [if_neg (by simp [hd]), if_neg (by simp [hc]), hp]
          rw [hstep] at hrun
          subst hrun
          obtain ⟨gd, hgd⟩ := hok
          exact absurd hgd (by simp)
        | ok gd =>
          have hstep : get_metadata j e key sp s =
              ({ s with netCalls := s.netCalls + 2,
                        cacheMetadata := cachePut s.cacheMetadata key gd },
                .ok gd) := by
            unfold get_metadata
            rw [if_neg (by simp [hd]), if_neg (by simp [hc]), hp]
          rw [hstep] at hrun
          subst hrun
          unfold get_metadata
          rw [if_neg (by simp [hd])]
          rw [if_pos (by simp [cacheHas, cachePut])]
          simp [cachePut]
  · intro sr cr key s cvs kinds hd hc hcv hne
    cases kinds with
    | nil => exact absurd rfl hne
    | cons kind rest =>
      have h1 : get_assets sr cr key kind s =
          ({ s with netCalls := s.netCalls + 2,
                    supersetFetches := s.supersetFetches + 1,
                    cacheInternal := cachePut s.cacheInternal key
                      (parseSnapAssets sr ++ cvs) },
            .ok ((parseSnapAssets sr ++ cvs).filter
              (fun a => a.asset_ID == some kind))) := by
        unfold get_assets retrieve_all_assets
        rw [if_neg (by simp [hd])]
        rw [if_neg (by simp [hc])]
        rw [hcv]
      simp only [runAssets, h1]
      rw [runAssets_cached sr cr key (parseSnapAssets sr ++ cvs) rest _
        (by simp [hd]) (by simp [cachePut])]
      rfl

theorem C1_session_cache_dedup_witness :
    get_metadata
        [("platforms", JSON.arr [JSON.obj
          [("platform_id", JSON.num 22),
           ("first_release_date", JSON.str "1986-09-26")]])]
        [] "castlevania|nes" 22
        (get_metadata
          [("platforms", JSON.arr [JSON.obj
            [("platform_id", JSON.num 22),
             ("first_release_date", JSON.str "1986-09-26")]])]
          [] "castlevania|nes" 22 ⟨"APIKEY", false, [], [], 0, 0⟩).1 =
      get_metadata
        [("platforms", JSON.arr [JSON.obj
          [("platform_id", JSON.num 22),
           ("first_release_date", JSON.str "1986-09-26")]])]
        [] "castlevania|nes" 22 ⟨"APIKEY", false, [], [], 0, 0⟩ ∧
    runAssets [⟨"Title Screen", "t1", "i1"⟩] [] "castlevania|nes"
        [ASSET_TITLE_ID, ASSET_SNAP_ID] ⟨"APIKEY", false, [], [], 0, 0⟩ =
      (⟨"APIKEY", false, [],
        [("castlevania|nes", [⟨some ASSET_TITLE_ID, "Title Screen", "t1", "i1"⟩])],
        2, 1⟩,
       [.ok [⟨some ASSET_TITLE_ID, "Title Screen", "t1", "i1"⟩], .ok []]) :=
  ⟨C1_session_cache_dedup.1 _ [] "castlevania|nes" 22
      ⟨"APIKEY", false, [], [], 0, 0⟩ _ rfl ⟨_, rfl⟩,
   C1_session_cache_dedup.2 [⟨"Title Screen", "t1", "i1"⟩] [] "castlevania|nes"
      ⟨"APIKEY", false, [], [], 0, 0⟩ [] [ASSET_TITLE_ID, ASSET_SNAP_ID]
      rfl rfl rfl (by simp)⟩

theorem contains_false_of_not_mem (l : List Char) (c : Char) (h : c ∉ l) :
    l.contains c = false := by
  cases hc : l.contains c with
  | false => rfl
  | true => exact absurd (List.elem_iff.mp hc) h

theorem containsSub_false_suffix (l : List Char)
    (h : containsSub apiKeyPat l = false) :
    ∀ s, s <:+ l → apiKeyPat.isPrefixOf s = false := by
  induction l with
  | nil =>
    intro s hs
    rw [List.suffix_nil.mp hs]
    decide
  | cons c cs ih =>
    obtain ⟨hpre, hrest⟩ := containsSub_cons_false h
    intro s hs
    rcases List.suffix_cons_iff.mp hs with h1 | h1
    · rw [h1]; exact hpre
    · exact ih hrest s h1

theorem apiKeyPat_length : apiKeyPat.length = 8 := rfl

theorem prefix_transfer (a2 r : List Char) (hne : a2 ≠ [])
    (h : apiKeyPat.isPrefixOf (a2 ++ (apiKeyPat ++ r)) = true) :
    apiKeyPat.isPrefixOf (a2 ++ apiKeyPat.take 7) = true := by
  rw [List.isPrefixOf_iff_prefix, List.prefix_iff_eq_take, apiKeyPat_length] at h ⊢
  rw [List.take_append_eq_append_take] at h ⊢
  rcases Nat.lt_or_ge a2.length 8 with hl | hl
  · have hpos : 0 < a2.length := List.length_pos.mpr hne
    have hk7 : 8 - a2.length ≤ 7 := by omega
    have hk8 : 8 - a2.length ≤ apiKeyPat.length := by rw [apiKeyPat_length]; omega
    rw [List.take_append_of_le_length hk8] at h
    rw [List.take_take, Nat.min_eq_left hk7]
    exact h
  · have h0 : 8 - a2.length = 0 := by omega
    rw [h0, List.take_zero] at h ⊢
    exact h

theorem prefix_false_region (a a2 r : List Char)
    (H1 : containsSub apiKeyPat (a ++ apiKeyPat.take 7) = false)
    (hsuf : a2 <:+ a) (hne : a2 ≠ []) :
    apiKeyPat.isPrefixOf (a2 ++ (apiKeyPat ++ r)) = false := by
  cases hp : apiKeyPat.isPrefixOf (a2 ++ (apiKeyPat ++ r)) with
  | false => rfl
  | true =>
    exfalso
    have h2 := prefix_transfer a2 r hne hp
    have hsuf2 : a2 ++ apiKeyPat.take 7 <:+ a ++ apiKeyPat.take 7 := by
      obtain ⟨u, rfl⟩ := hsuf
      exact ⟨u, (List.append_assoc u a2 (apiKeyPat.take 7)).symm⟩
    have h3 := containsSub_false_suffix _ H1 _ hsuf2
    rw [h3] at h2
    exact Bool.false_ne_true h2

theorem subA_append_of_no_fire (a t : List Char)
    (h : ∀ a2, a2 <:+ a → a2 ≠ [] → fireA (a2 ++ t) = false) :
    subA (a ++ t) = a ++ subA t := by
  induction a with
  | nil => simp
  | cons c a' ih =>
    have hf := h (c :: a') (List.suffix_refl _) (by simp)
    rw [List.cons_append] at hf ⊢
    simp only [subA, hf, Bool.false_eq_true, if_false]
    rw [ih (fun a2 hs hn => h a2 (hs.trans (List.suffix_cons c a')) hn)]
    rfl

theorem subB_append_of_no_fire (a t : List Char)
    (h : ∀ a2, a2 <:+ a → a2 ≠ [] → fireB (a2 ++ t) = false) :
    subB (a ++ t) = a ++ subB t := by
  induction a with
  | nil => simp
  | cons c a' ih =>
    have hf := h (c :: a') (List.suffix_refl _) (by simp)
    rw [List.cons_append] at hf ⊢
    simp only [subB, hf, Bool.false_eq_true, if_false]
    rw [ih (fun a2 hs hn => h a2 (hs.trans (List.suffix_cons c a')) hn)]
    rfl

theorem dropWhile_append_amp (v b : List Char) (hv : '&' ∉ v) :
    (v ++ '&' :: b).dropWhile (fun c => !(c == '&')) = '&' :: b := by
  induction v with
  | nil => simp [List.dropWhile_cons]
  | cons c cs ih =>
    have hc : (c == '&') = false :=
      beq_eq_false_iff_ne.mpr (fun hcc => hv (hcc ▸ List.mem_cons_self c cs))
    have hcs : '&' ∉ cs := fun hm => hv (List.mem_cons_of_mem c hm)
    simp [List.cons_append, List.dropWhile_cons, hc, ih hcs]

theorem subA_fire_step (v b : List Char) (hv : '&' ∉ v) :
    subA (apiKeyPat ++ (v ++ '&' :: b)) = "api_key=***&".toList ++ subA b := by
  have hcons : apiKeyPat ++ (v ++ '&' :: b) =
      'a' :: ("pi_key=".toList ++ (v ++ '&' :: b)) := rfl
  have hdrop : (apiKeyPat ++ (v ++ '&' :: b)).drop 8 = v ++ '&' :: b := by
    rw [← apiKeyPat_length, List.drop_left]
  have hfire : fireA ('a' :: ("pi_key=".toList ++ (v ++ '&' :: b))) = true := by
    rw [← hcons]
    unfold fireA
    rw [show apiKeyPat.isPrefixOf (apiKeyPat ++ (v ++ '&' :: b)) = true from
      List.isPrefixOf_iff_prefix.mpr (List.prefix_append _ _)]
    rw [hdrop]
    rw [show (v ++ '&' :: b).contains '&' = true from
      List.elem_iff.mpr (by simp)]
    rfl
  have hafter : afterMatchA ('a' :: ("pi_key=".toList ++ (v ++ '&' :: b))) = b := by
    unfold afterMatchA
    rw [← hcons, hdrop, dropWhile_append_amp v b hv]
    rfl
  rw [hcons]
  simp only [subA, hfire, eq_self_iff_true, if_true, hafter]

theorem subB_fire_step_end (v : List Char) (hv : '&' ∉ v) :
    subB (apiKeyPat ++ v) = "api_key=***".toList := by
  have hcons : apiKeyPat ++ v = 'a' :: ("pi_key=".toList ++ v) := rfl
  have hfire : fireB ('a' :: ("pi_key=".toList ++ v)) = true := by
    rw [← hcons]
    unfold fireB
    rw [show apiKeyPat.isPrefixOf (apiKeyPat ++ v) = true from
      List.isPrefixOf_iff_prefix.mpr (List.prefix_append _ _)]
    rw [show (apiKeyPat ++ v).drop 8 = v from by rw [← apiKeyPat_length, List.drop_left]]
    rw [contains_false_of_not_mem v '&' hv]
    rfl
  rw [hcons]
  simp only [subB, hfire, eq_self_iff_true, if_true]

theorem subB_cons_eq (c : Char) (cs : List Char) :
    subB (c :: cs) =
      if fireB (c :: cs) then "api_key=***".toList else c :: subB cs := rfl

theorem subB_replA_step (b : List Char) (hb : containsSub apiKeyPat b = false) :
    subB ("api_key=***&".toList ++ b) = "api_key=***&".toList ++ b := by
  have hcons : "api_key=***&".toList ++ b =
      'a' :: ("pi_key=***&".toList ++ b) := rfl
  have hcontains : (('a' :: ("pi_key=***&".toList ++ b)).drop 8).contains '&' = true := by
    rw [show ('a' :: ("pi_key=***&".toList ++ b)).drop 8 =
      '*' :: '*' :: '*' :: '&' :: b from rfl]
    exact List.elem_iff.mpr (by simp)
  have hfireB : fireB ('a' :: ("pi_key=***&".toList ++ b)) = false := by
    unfold fireB
    rw [hcontains]
    simp
  have hnofire : ∀ a2, a2 <:+ "pi_key=***&".toList → a2 ≠ [] →
      fireB (a2 ++ b) = false := by
    intro a2 hs hn
    cases a2 with
    | nil => exact absurd rfl hn
    | cons c x =>
      have hcmem : c ∈ "pi_key=***&".toList := hs.sublist.mem (List.mem_cons_self c x)
      have hcne : c ≠ 'a' := by
        intro hca
        subst hca
        revert hcmem
        decide
      have hpref : apiKeyPat.isPrefixOf ((c :: x) ++ b) = false := by
        rw [List.cons_append]
        rw [show apiKeyPat = 'a' :: "pi_key=".toList from rfl]
        simp [List.isPrefixOf, beq_eq_false_iff_ne.mpr (fun h => hcne h.symm)]
      unfold fireB
      rw [hpref]
      rfl
  rw [hcons, subB_cons_eq, hfireB]
  rw [if_neg (by simp)]
  rw [subB_append_of_no_fire "pi_key=***&".toList b hnofire, subB_id b hb]

/-- **C8** — `_clean_URL_for_log` redacts `api_key=VALUE&...` to
`api_key=***&...` mid-URL, redacts a trailing `api_key=VALUE` to
`api_key=***`, and leaves every other part of the URL — in particular every
other query parameter — byte-for-byte unchanged; a URL with no `api_key=`
parameter passes through identically.  The side conditions say the
surrounding URL text contains no further `api_key=` occurrence and that the
key value itself contains no `&` (the regexes' value class is `[^&]*`). -/
theorem C8_clean_url_redaction :
    (∀ (a v b : List Char),
      containsSub apiKeyPat (a ++ apiKeyPat.take 7) = false →
      '&' ∉ v →
      containsSub apiKeyPat b = false →
      cleanChars (a ++ (apiKeyPat ++ (v ++ '&' :: b))) =
        a ++ ("api_key=***&".toList ++ b)) ∧
    (∀ (a v : List Char),
      containsSub apiKeyPat (a ++ apiKeyPat.take 7) = false →
      '&' ∉ v →
      cleanChars (a ++ (apiKeyPat ++ v)) = a ++ "api_key=***".toList) ∧
    (∀ u : List Char, containsSub apiKeyPat u = false → cleanChars u = u) := by
  refine ⟨?_, ?_, ?_⟩
  · intro a v b H1 H2 H3
    unfold cleanChars
    rw [subA_append_of_no_fire a (apiKeyPat ++ (v ++ '&' :: b)) (fun a2 hs hn => by
      unfold fireA
      rw [prefix_false_region a a2 (v ++ '&' :: b) H1 hs hn]
      rfl)]
    rw [subA_fire_step v b H2, subA_id b H3]
    have hnofireB : ∀ a2, a2 <:+ a → a2 ≠ [] →
        fireB (a2 ++ ("api_key=***&".toList ++ b)) = false := by
      intro a2 hs hn
      have harg : a2 ++ ("api_key=***&".toList ++ b) =
          a2 ++ (apiKeyPat ++ ("***&".toList ++ b)) := by
        rw [show ("api_key=***&".toList : List Char) =
          apiKeyPat ++ "***&".toList from rfl, List.append_assoc]
      rw [harg]
      unfold fireB
      rw [prefix_false_region a a2 ("***&".toList ++ b) H1 hs hn]
      rfl
    rw [subB_append_of_no_fire a ("api_key=***&".toList ++ b) hnofireB]
    rw [subB_replA_step b H3]
  · intro a v H1 H2
    unfold cleanChars
    have hampv : '&' ∉ apiKeyPat ++ v := by
      intro hm
      rcases List.mem_append.mp hm with h | h
      · revert h; decide
      · exact H2 h
    have hnofireA2 : ∀ a2, a2 <:+ apiKeyPat ++ v → a2 ≠ [] →
        fireA (a2 ++ ([] : List Char)) = false := by
      intro a2 hs hn
      unfold fireA
      rw [List.append_nil]
      have hdrop : (a2.drop 8).contains '&' = false := by
        apply contains_false_of_not_mem
        intro hm
        exact hampv (hs.sublist.mem ((List.drop_sublist 8 a2).mem hm))
      rw [hdrop, Bool.and_false]
    have hsubA : subA (apiKeyPat ++ v) = apiKeyPat ++ v := by
      have hstep := subA_append_of_no_fire (apiKeyPat ++ v) [] hnofireA2
      rw [List.append_nil] at hstep
      have h0 : subA ([] : List Char) = [] := by simp [subA]
      rw [h0, List.append_nil] at hstep
      exact hstep
    rw [subA_append_of_no_fire a (apiKeyPat ++ v) (fun a2 hs hn => by
      unfold fireA
      rw [prefix_false_region a a2 v H1 hs hn]
      rfl)]
    rw [hsubA]
    rw [subB_append_of_no_fire a (apiKeyPat ++ v) (fun a2 hs hn => by
      unfold fireB
      rw [prefix_false_region a a2 v H1 hs hn]
      rfl)]
    rw [subB_fire_step_end v H2]
  · exact cleanChars_id

theorem C8_clean_url_redaction_witness :
    cleanChars ("https://api.mobygames.com/v1/games?".toList ++
        (apiKeyPat ++ ("SECRETKEY".toList ++ '&' ::
          "format=brief&title=castlevania".toList))) =
      "https://api.mobygames.com/v1/games?".toList ++
        ("api_key=***&".toList ++ "format=brief&title=castlevania".toList) ∧
    cleanChars ("https://api.mobygames.com/v1/games?".toList ++
        (apiKeyPat ++ "SECRETKEY".toList)) =
      "https://api.mobygames.com/v1/games?".toList ++ "api_key=***".toList ∧
    cleanChars "https://api.mobygames.com/v1/games?format=brief".toList =
      "https://api.mobygames.com/v1/games?format=brief".toList :=
  ⟨C8_clean_url_redaction.1 _ _ _ (by decide) (by decide) (by decide),
   C8_clean_url_redaction.2.1 _ _ (by decide) (by decide),
   C8_clean_url_redaction.2.2 _ (by decide)⟩
